import Mathlib

/-!
Shallow embedding of the BlueCroft lending-metrics engine, translated from
`src/app/metrics.py` and `src/app/parser_helper.py`.

Modelling conventions:
* Python floats are modelled as exact rationals (`ℚ`); IEEE-754 rounding error,
  overflow, and the special values `inf`/`nan` are outside the model, so the
  string forms "inf"/"nan" are treated as unparsable.
* Python `round(x, n)` (round-half-to-even) is `roundTo n` on the exact value.
* Python dicts are association lists in insertion order; assignment updates the
  first binding in place or appends a new binding, as CPython dicts do.
* `try/except` blocks are modelled by explicit guards on the exact conditions
  under which the guarded Python code raises.
-/

namespace BlueCroft

/-- A Python value as it appears in the engine's records. -/
inductive Val where
  | vNone
  | vInt (n : ℤ)
  | vFloat (q : ℚ)
  | vBool (b : Bool)
  | vStr (s : String)
  | vList (xs : List Val)
  | vDict (entries : List (String × Val))

/-- A Python dict with string keys, in insertion order. -/
abbrev Record := List (String × Val)

/-- `d[key]` lookup; `none` for a missing key. -/
def dictLookup : Record → String → Option Val
  | [], _ => none
  | (k, v) :: rest, key => if k = key then some v else dictLookup rest key

/-- Python `key in d`. -/
def dictContains (d : Record) (key : String) : Bool :=
  (dictLookup d key).isSome

/-- Python `d[key] = v`: update in place, else append (CPython dict order). -/
def dictSet : Record → String → Val → Record
  | [], key, v => [(key, v)]
  | (k, w) :: rest, key, v =>
    if k = key then (k, v) :: rest else (k, w) :: dictSet rest key v

/-- Python `d.get(key)`: a stored `None` is indistinguishable from absence. -/
def pyGet (d : Record) (key : String) : Option Val :=
  match dictLookup d key with
  | some Val.vNone => none
  | r => r

/-- Python truthiness of a value. -/
def valTruthy : Val → Bool
  | .vNone => false
  | .vInt n => n != 0
  | .vFloat q => q != 0
  | .vBool b => b
  | .vStr s => s != ""
  | .vList xs => !xs.isEmpty
  | .vDict d => !d.isEmpty

def optValTruthy : Option Val → Bool
  | some v => valTruthy v
  | none => false

/-- Python `a or b` on optional values. -/
def pyOrVal (a b : Option Val) : Option Val :=
  if optValTruthy a then a else b

def qTruthy : Option ℚ → Bool
  | some q => q != 0
  | none => false

/-- Python `a or b` on optional numbers. -/
def pyOrQ (a b : Option ℚ) : Option ℚ :=
  if qTruthy a then a else b

/-- Python `round` to an integer: round-half-to-even on the exact value. -/
def roundHalfEven (x : ℚ) : ℤ :=
  let f := ⌊x⌋
  let r := x - (f : ℚ)
  if r < 1/2 then f
  else if 1/2 < r then f + 1
  else if f % 2 = 0 then f else f + 1

/-- Python `round(x, n)` on the exact rational value. -/
def roundTo (n : ℕ) (x : ℚ) : ℚ :=
  (roundHalfEven (x * 10 ^ n) : ℚ) / 10 ^ n

/-- Python `int(x)` on a float: truncation toward zero. -/
def pyInt (q : ℚ) : ℤ :=
  if 0 ≤ q then ⌊q⌋ else -⌊-q⌋

/-- Python whitespace (`str.strip` / `float` both strip these). -/
def isWs (c : Char) : Bool :=
  c = ' ' || c = '\t' || c = '\n' || c = '\r' || c = '\x0b' || c = '\x0c'

/-- Python `str.strip()` (ASCII whitespace). -/
def pyStrip (s : String) : String :=
  ⟨((s.data.dropWhile isWs).reverse.dropWhile isWs).reverse⟩

/-- `s.replace(c, "")` for single characters, as character filtering. -/
def removeChars (cs : List Char) (s : List Char) : List Char :=
  s.filter (fun c => !cs.contains c)

/-- ASCII approximation of the regex class `\w`. -/
def isWordChar (c : Char) : Bool :=
  c.isAlphanum || c = '_'

/-- Python `str.lower()` (ASCII). -/
def lowerStr (s : String) : String :=
  ⟨s.data.map Char.toLower⟩

def charsPrefix : List Char → List Char → Bool
  | [], _ => true
  | _ :: _, [] => false
  | a :: as, b :: bs => a == b && charsPrefix as bs

def charsInfix (needle : List Char) : List Char → Bool
  | [] => charsPrefix needle []
  | b :: bs => charsPrefix needle (b :: bs) || charsInfix needle bs

/-- Python `needle in hay` on strings. -/
def strIn (needle hay : String) : Bool :=
  charsInfix needle.data hay.data

def digitVal (c : Char) : ℕ := c.toNat - '0'.toNat

def natOfDigits (l : List Char) : ℕ :=
  l.foldl (fun a c => a * 10 + digitVal c) 0

/-! ## Amortization engine (`metrics.py`, `amortization_schedule`) -/

/-- One row of the amortization schedule (`metrics.py` lines 159-165). -/
structure AmortRow where
  month : ℕ
  payment : ℚ
  interest : ℚ
  principal : ℚ
  balance : ℚ

/-- The month loop of `amortization_schedule` (lines 150-165): rows for the
`k` remaining months starting at month `m` with the given running balance.
On the final month the principal component is forced to the whole remaining
balance and the payment recomputed, so the closing balance is exactly `0.0`. -/
def amortLoop (r_month payment : ℚ) : ℕ → ℕ → ℚ → List AmortRow
  | 0, _, _ => []
  | 1, m, balance =>
    let interest := balance * r_month
    [{ month := m, payment := roundTo 2 (interest + balance),
       interest := roundTo 2 interest, principal := roundTo 2 balance,
       balance := roundTo 2 0 }]
  | k + 2, m, balance =>
    let interest := balance * r_month
    let principal := payment - interest
    let balance2 := max (balance - principal) 0
    { month := m, payment := roundTo 2 payment, interest := roundTo 2 interest,
      principal := roundTo 2 principal, balance := roundTo 2 balance2 }
      :: amortLoop r_month payment (k + 1) (m + 1) balance2

/-- `amortization_schedule(loan_amount, annual_rate_decimal, term_months)`
(`metrics.py` lines 134-166).  `none` models the exceptional exits: the
explicit `ValueError` for a non-positive term, and the `ZeroDivisionError`s
of `0.0 ** -n` and of a vanishing level-payment denominator. -/
def amortization_schedule (loan_amount annual_rate_decimal : ℚ)
    (term_months : ℤ) : Option (List AmortRow) :=
  -- `r_month = annual_rate_decimal / 12 if annual_rate_decimal else 0.0`,
  -- so `r_month == 0` exactly when the rate is zero.
  if term_months ≤ 0 then none
  else if annual_rate_decimal = 0 then
    some (amortLoop 0 (loan_amount / (term_months.toNat : ℚ))
      term_months.toNat 1 loan_amount)
  else if 1 + annual_rate_decimal / 12 = 0 then none
  else if (1 : ℚ) - (1 + annual_rate_decimal / 12) ^ (-(term_months.toNat : ℤ)) = 0 then none
  else
    some (amortLoop (annual_rate_decimal / 12)
      (loan_amount * (annual_rate_decimal / 12) /
        (1 - (1 + annual_rate_decimal / 12) ^ (-(term_months.toNat : ℤ))))
      term_months.toNat 1 loan_amount)

/-! ## A small backtracking regex engine

Python's `re` patterns used by the source are fixed and small; this engine
reproduces `re` matching order exactly for them: leftmost starting position,
ordered alternation, greedy (`*`, `?`) and lazy (`*?`, `+?`) quantifiers via
backtracking preference, capture groups, and the `\b` word boundary. -/

/-- Regex abstract syntax (only the constructs the source's patterns use). -/
inductive RE where
  | eps
  | cls (p : Char → Bool)
  | seq (a b : RE)
  | alt (a b : RE)
  | optG (r : RE)
  | starG (r : RE)
  | starL (r : RE)
  | grp (idx : ℕ) (r : RE)
  | wb

def RE.plusG (r : RE) : RE := .seq r (.starG r)
def RE.plusL (r : RE) : RE := .seq r (.starL r)

/-- Word boundary at position `i` of `s`: exactly one neighbour is a `\w` char. -/
def atBoundary (s : List Char) (i : ℕ) : Bool :=
  let before := match s.get? (i - 1) with
    | some c => if i = 0 then false else isWordChar c
    | none => false
  let after := match s.get? i with
    | some c => isWordChar c
    | none => false
  before != after

/-- Captured groups: `(index, start, stop)` positions into the subject. -/
abbrev Caps := List (ℕ × ℕ × ℕ)

/-- Backtracking matcher in continuation-passing style.  The continuation
receives the position after this node and the captures so far; alternatives
are explored in `re`'s preference order, so the first success is the match
Python would produce.  `fuel` only bounds recursion depth. -/
def mrun : ℕ → RE → List Char → ℕ → Caps →
    (ℕ → Caps → Option (ℕ × Caps)) → Option (ℕ × Caps)
  | 0, _, _, _, _, _ => none
  | _ + 1, .eps, _, i, caps, k => k i caps
  | _ + 1, .cls p, s, i, caps, k =>
    match s.get? i with
    | some c => if p c then k (i + 1) caps else none
    | none => none
  | fuel + 1, .seq a b, s, i, caps, k =>
    mrun fuel a s i caps (fun j caps2 => mrun fuel b s j caps2 k)
  | fuel + 1, .alt a b, s, i, caps, k =>
    (mrun fuel a s i caps k) <|> (mrun fuel b s i caps k)
  | fuel + 1, .optG r, s, i, caps, k =>
    (mrun fuel r s i caps k) <|> k i caps
  | fuel + 1, .starG r, s, i, caps, k =>
    (mrun fuel r s i caps (fun j caps2 =>
      if j = i then none else mrun fuel (.starG r) s j caps2 k)) <|> k i caps
  | fuel + 1, .starL r, s, i, caps, k =>
    (k i caps) <|> (mrun fuel r s i caps (fun j caps2 =>
      if j = i then none else mrun fuel (.starL r) s j caps2 k))
  | fuel + 1, .grp n r, s, i, caps, k =>
    mrun fuel r s i caps (fun j caps2 => k j ((n, i, j) :: caps2))
  | _ + 1, .wb, s, i, caps, k =>
    if atBoundary s i then k i caps else none

/-- One regex match: overall span and captures. -/
structure RxMatch where
  mstart : ℕ
  mstop : ℕ
  caps : Caps

def matchFuel (s : List Char) : ℕ := 64 * (s.length + 2) * (s.length + 2) + 64

/-- First match attempt anchored at position `i`. -/
def matchAt (re : RE) (s : List Char) (i : ℕ) : Option RxMatch :=
  match mrun (matchFuel s) re s i [] (fun j caps => some (j, caps)) with
  | some (j, caps) => some ⟨i, j, caps⟩
  | none => none

/-- `re.search` scanning (leftmost match at or after `i`). -/
def searchFrom (re : RE) (s : List Char) : ℕ → ℕ → Option RxMatch
  | 0, i => matchAt re s i
  | fuel + 1, i =>
    if i > s.length then none
    else match matchAt re s i with
      | some m => some m
      | none => searchFrom re s fuel (i + 1)

def rxSearch (re : RE) (s : List Char) : Option RxMatch :=
  searchFrom re s (s.length + 1) 0

/-- `re.finditer`: non-overlapping matches, each search resuming at the end of
the previous match (advancing one position after an empty match). -/
def finditerAux (re : RE) (s : List Char) : ℕ → ℕ → List RxMatch
  | 0, _ => []
  | fuel + 1, i =>
    if i > s.length then []
    else match searchFrom re s (s.length + 1 - i) i with
      | none => []
      | some m =>
        m :: finditerAux re s fuel (if m.mstop > i then m.mstop else m.mstop + 1)

def rxFinditer (re : RE) (s : List Char) : List RxMatch :=
  finditerAux re s (s.length + 2) 0

/-- Text of the capture group `idx` of a match (`m.group(idx)`); the groups in
the source's patterns always participate in a successful match. -/
def groupText (s : List Char) (m : RxMatch) (idx : ℕ) : String :=
  match m.caps.find? (fun c => c.1 == idx) with
  | some (_, a, b) => ⟨(s.take b).drop a⟩
  | none => ""

/-- Text of the whole match (`m.group(0)`). -/
def matchText (s : List Char) (m : RxMatch) : String :=
  ⟨(s.take m.mstop).drop m.mstart⟩

/-! Character classes used by the source's patterns. -/

def isDigitChar (c : Char) : Bool := c.isDigit

/-- `[A-Za-z0-9_ \(\)\-]` (key label class of `_kv_rx` / the inline pattern). -/
def isKeyChar (c : Char) : Bool :=
  c.isAlphanum || c = '_' || c = ' ' || c = '(' || c = ')' || c = '-'

/-- `[^\n\r,{}]` (value class of `_kv_rx`). -/
def isKvValChar (c : Char) : Bool :=
  !(c = '\n' || c = '\r' || c = ',' || c = '\x7b' || c = '\x7d')

def isQuoteChar (c : Char) : Bool := c = '"' || c = '\''

/-- `\s`. -/
def isSpaceChar (c : Char) : Bool := isWs c

/-- `[0-9.\-]` (JSON-ish numeric value class). -/
def isJsonNumChar (c : Char) : Bool := c.isDigit || c = '.' || c = '-'

/-- `[0-9,\.\-]` (inline numeric value class). -/
def isInlineNumChar (c : Char) : Bool := c.isDigit || c = ',' || c = '.' || c = '-'

/-- `[\d,\.]` (tail class of `_num_rx`). -/
def isNumTailChar (c : Char) : Bool := c.isDigit || c = ',' || c = '.'

/-- `_num_rx = (-?\d[\d,\.]*)` (`parser_helper.py` line 34). -/
def numRx : RE :=
  .grp 1 (.seq (.optG (.cls (· = '-')))
    (.seq (.cls isDigitChar) (.starG (.cls isNumTailChar))))

/-- `_kv_rx` (`parser_helper.py` lines 35-38):
`(?:["\']?\b([A-Za-z0-9_ \(\)\-]+?)["\']?\s*[:=]\s*(?:["\']?([^\n\r,{}]+?)["\']?))`. -/
def kvRx : RE :=
  .seq (.optG (.cls isQuoteChar))
    (.seq .wb
      (.seq (.grp 1 (RE.plusL (.cls isKeyChar)))
        (.seq (.optG (.cls isQuoteChar))
          (.seq (.starG (.cls isSpaceChar))
            (.seq (.cls (fun c => c = ':' || c = '='))
              (.seq (.starG (.cls isSpaceChar))
                (.seq (.optG (.cls isQuoteChar))
                  (.seq (.grp 2 (RE.plusL (.cls isKvValChar)))
                    (.optG (.cls isQuoteChar))))))))))

/-- `_json_kv_rx` (`parser_helper.py` line 39):
`"([^"]+)"\s*:\s*(".*?"|[0-9.\-]+)`. -/
def jsonKvRx : RE :=
  .seq (.cls (· = '"'))
    (.seq (.grp 1 (RE.plusG (.cls (· ≠ '"'))))
      (.seq (.cls (· = '"'))
        (.seq (.starG (.cls isSpaceChar))
          (.seq (.cls (· = ':'))
            (.seq (.starG (.cls isSpaceChar))
              (.grp 2 (.alt
                (.seq (.cls (· = '"'))
                  (.seq (.starL (.cls (· ≠ '\n'))) (.cls (· = '"'))))
                (RE.plusG (.cls isJsonNumChar)))))))))

/-- The inline pattern of `extract_embedded_kv` (`parser_helper.py` line 131):
`([A-Za-z0-9_ \(\)\-]+?)\s*:\s*([0-9,\.\-]+)`. -/
def inlineRx : RE :=
  .seq (.grp 1 (RE.plusL (.cls isKeyChar)))
    (.seq (.starG (.cls isSpaceChar))
      (.seq (.cls (· = ':'))
        (.seq (.starG (.cls isSpaceChar))
          (.grp 2 (RE.plusG (.cls isInlineNumChar))))))

/-- The fallback numeric pattern of `_to_float_safe` (`metrics.py` line 69):
`-?\d+(\.\d+)?`. -/
def floatSubstRx : RE :=
  .seq (.optG (.cls (· = '-')))
    (.seq (RE.plusG (.cls isDigitChar))
      (.optG (.grp 1 (.seq (.cls (· = '.')) (RE.plusG (.cls isDigitChar))))))

/-! ## Python numeric-string parsing -/

/-- Valid underscore placement inside a Python numeric digit group: every
underscore sits between two digits.  The Boolean argument records whether the
previous character was a digit. -/
def usScan : Bool → List Char → Bool
  | _, [] => true
  | prevDigit, c :: rest =>
    if c = '_' then
      (prevDigit && (match rest with | d :: _ => d.isDigit | [] => false))
        && usScan false rest
    else usScan c.isDigit rest

/-- Split off a maximal run of digits and underscores. -/
def takeUS (l : List Char) : List Char × List Char :=
  (l.takeWhile (fun c => c.isDigit || c = '_'),
   l.dropWhile (fun c => c.isDigit || c = '_'))

def groupValid (g : List Char) : Bool := !g.isEmpty && usScan false g

def groupDigits (g : List Char) : List Char := g.filter (· ≠ '_')

/-- Optional exponent part of a Python float literal, applied to mantissa `m`. -/
def pyFloatExp (m : ℚ) : List Char → Option ℚ
  | [] => some m
  | c :: r =>
    if c = 'e' ∨ c = 'E' then
      let sr : ℤ × List Char :=
        match r with
        | '+' :: t => (1, t)
        | '-' :: t => (-1, t)
        | t => (1, t)
      let gr := takeUS sr.2
      if groupValid gr.1 ∧ gr.2 = [] then
        some (m * (10 : ℚ) ^ (sr.1 * (natOfDigits (groupDigits gr.1) : ℤ)))
      else none
    else none

/-- Unsigned body of a Python float literal: `D [. D?] [exp]` or `. D [exp]`. -/
def pyFloatBody (l : List Char) : Option ℚ :=
  let p1 := takeUS l
  if p1.1.isEmpty then
    match p1.2 with
    | '.' :: r2 =>
      let p2 := takeUS r2
      if groupValid p2.1 then
        pyFloatExp ((natOfDigits (groupDigits p2.1) : ℚ) / 10 ^ (groupDigits p2.1).length) p2.2
      else none
    | _ => none
  else if groupValid p1.1 then
    let ip : ℚ := (natOfDigits (groupDigits p1.1) : ℚ)
    match p1.2 with
    | '.' :: r2 =>
      let p2 := takeUS r2
      if p2.1.isEmpty then pyFloatExp ip p2.2
      else if groupValid p2.1 then
        pyFloatExp (ip + (natOfDigits (groupDigits p2.1) : ℚ) / 10 ^ (groupDigits p2.1).length) p2.2
      else none
    | _ => pyFloatExp ip p1.2
  else none

/-- Python `float(str)` for finite decimal literals (sign, optional fraction,
optional exponent, digit-group underscores).  `inf`/`nan` are IEEE special
values outside the rational model and are treated as unparsable. -/
def pyFloatOfStr (s : String) : Option ℚ :=
  let l := (pyStrip s).data
  match l with
  | '+' :: rest => pyFloatBody rest
  | '-' :: rest => (pyFloatBody rest).map Neg.neg
  | _ => pyFloatBody l

def allDigits (l : List Char) : Bool := !l.isEmpty && l.all Char.isDigit

/-- `re.fullmatch(r'-?\d+', s)`. -/
def isIntLit : List Char → Bool
  | '-' :: rest => allDigits rest
  | l => allDigits l

/-- Value of a `-?digits` literal (Python `int(s)`). -/
def intLitVal : List Char → ℤ
  | '-' :: rest => -(natOfDigits rest : ℤ)
  | l => (natOfDigits l : ℤ)

def dottedCore (l : List Char) : Bool :=
  let a := l.takeWhile Char.isDigit
  match l.dropWhile Char.isDigit with
  | '.' :: b => !a.isEmpty && allDigits b
  | _ => false

/-- `re.fullmatch(r'-?\d+\.\d+', s)`. -/
def isFloatLitDotted : List Char → Bool
  | '-' :: rest => dottedCore rest
  | l => dottedCore l

def dottedVal (l : List Char) : ℚ :=
  let a := l.takeWhile Char.isDigit
  let b := (l.dropWhile Char.isDigit).drop 1
  (natOfDigits a : ℚ) + (natOfDigits b : ℚ) / 10 ^ b.length

def floatLitVal : List Char → ℚ
  | '-' :: rest => -(dottedVal rest)
  | l => dottedVal l

/-- Smallest number of decimals (up to 17) rendering `q` exactly. -/
def decExp (q : ℚ) : Option ℕ :=
  (List.range 18).find? (fun k => (q * 10 ^ k).den == 1)

/-- `str()` of a Python float.  Exact decimal expansions are rendered exactly;
shortest-roundtrip artifacts of binary floats are outside the model. -/
def floatRepr (q : ℚ) : String :=
  match decExp q with
  | some 0 => toString q.num ++ ".0"
  | some k =>
    let m := (q * 10 ^ k).num
    let sign := if m < 0 then "-" else ""
    let ds := toString m.natAbs
    let len := ds.length
    if len ≤ k then sign ++ "0." ++ ⟨List.replicate (k - len) '0'⟩ ++ ds
    else sign ++ ⟨ds.data.take (len - k)⟩ ++ "." ++ ⟨ds.data.drop (len - k)⟩
  | none => toString q.num ++ "/" ++ toString q.den

mutual

/-- Python `repr()` of a value (quoting of special characters approximated). -/
def pyRepr : Val → String
  | .vNone => "None"
  | .vInt n => toString n
  | .vFloat q => floatRepr q
  | .vBool b => if b then "True" else "False"
  | .vStr s => "'" ++ s ++ "'"
  | .vList xs => "[" ++ String.intercalate ", " (pyReprList xs) ++ "]"
  | .vDict d => "\x7b" ++ String.intercalate ", " (pyReprDict d) ++ "\x7d"

def pyReprList : List Val → List String
  | [] => []
  | v :: rest => pyRepr v :: pyReprList rest

def pyReprDict : List (String × Val) → List String
  | [] => []
  | (k, v) :: rest => ("'" ++ k ++ "': " ++ pyRepr v) :: pyReprDict rest

end

/-- Python `str()` of a value. -/
def pyStr : Val → String
  | .vStr s => s
  | v => pyRepr v

/-! ## Key canonicalization and value coercion (`metrics.py`) -/

/-- The non-breaking-space/comma/currency and percent cleanup of
`_to_float_safe` (`metrics.py` lines 61-63). -/
def tfsClean (s1 : String) : List Char :=
  removeChars ['%'] (pyStrip ⟨removeChars [' ', ',', '£', '$'] s1.data⟩).data

/-- The float-conversion core of `_to_float_safe` (`metrics.py` lines 65-75):
direct parse, else first `-?\\d+(\\.\\d+)?` substring. -/
def tfsCore (s3 : List Char) : Option ℚ :=
  match pyFloatOfStr ⟨s3⟩ with
  | some q => some q
  | none =>
    match rxSearch floatSubstRx s3 with
    | some m => pyFloatOfStr (matchText s3 m)
    | none => none

/-- `_to_float_safe` on the string path (`metrics.py` lines 57-75). -/
def to_float_safe_str (s : String) : Option ℚ :=
  let s1 := pyStrip s
  if s1 = "" then none
  else tfsCore (tfsClean s1)

/-- `_to_float_safe(v)` (`metrics.py` lines 48-75).  `float(v)` on an exact
int/float never fails in the rational model (float overflow is out of scope). -/
def to_float_safe : Option Val → Option ℚ
  | none => none
  | some .vNone => none
  | some (.vInt n) => some (n : ℚ)
  | some (.vFloat q) => some q
  | some (.vBool b) => to_float_safe_str (if b then "True" else "False")
  | some (.vStr s) => to_float_safe_str s
  | some (.vList xs) => to_float_safe_str (pyRepr (.vList xs))
  | some (.vDict d) => to_float_safe_str (pyRepr (.vDict d))

/-- `re.sub(r"[^\w]", "", str(k).lower())` (`_find_by_alias`). -/
def normSubKey (s : String) : String :=
  ⟨(lowerStr s).data.filter isWordChar⟩

/-- Python dict assignment on a string-to-string mapping: update the existing
binding in place (keeping its position) or append a new one. -/
def insertOrUpdateStr (m : List (String × String)) (k v : String) : List (String × String) :=
  if m.any (fun p => p.1 == k) then
    m.map (fun p => if p.1 == k then (p.1, v) else p)
  else m ++ [(k, v)]

/-- Collapse a stored Python `None` into absence (what `.get` hands callers). -/
def noneCollapse : Option Val → Option Val
  | some .vNone => none
  | r => r

/-- `_find_by_alias(parsed, aliases)` (`metrics.py` lines 78-99): exact match
on punctuation-stripped lowercase keys first (in alias order, through a
last-write-wins normalized-key map), then first record key containing any
alias as a lowercase substring. -/
def find_by_alias (parsed : Record) (aliases : List String) : Option Val :=
  if parsed.isEmpty then none
  else
    let normMap : List (String × String) :=
      parsed.foldl (fun m kv => insertOrUpdateStr m (normSubKey kv.1) kv.1) []
    match aliases.findSome? (fun a =>
        (normMap.find? (fun p => p.1 == normSubKey a)).map (fun p => p.2)) with
    | some k => noneCollapse (dictLookup parsed k)
    | none =>
      match parsed.findSome? (fun kv =>
          if aliases.any (fun a => strIn (lowerStr a) (lowerStr kv.1)) then some kv.1
          else none) with
      | some k => noneCollapse (dictLookup parsed k)
      | none => none

/-- `CANONICAL_KEYS` (`metrics.py` lines 25-45), in source order. -/
def CANONICAL_KEYS : List (String × List String) := [
  ("loan_amount", ["loan_amount", "loan", "requested_loan", "amount_requested"]),
  ("property_value", ["property_value", "property_value_estimate", "property", "value_of_property"]),
  ("project_cost", ["project_cost", "project cost", "total_project_cost", "total_project", "total_cost"]),
  ("total_cost", ["total_cost", "total project cost", "totalprojectcost"]),
  ("interest_rate_annual", ["interest_rate_annual", "interest rate (annual)", "interest_rate", "rate", "annual_rate"]),
  ("term_months", ["loan_term_months", "loan term months", "term_months", "term", "loan_term", "term_month"]),
  ("income", ["income", "annual_income", "applicant_income"]),
  ("noi", ["noi", "net_operating_income"]),
  ("annual_rent", ["annual_rent", "rental_income_annual", "annual_rental_income"]),
  ("operating_expenses", ["operating_costs", "operating_costs", "operating_expenses", "annual_expenses"]),
  ("policy_flags", ["policy_flags", "flags"]),
  ("bank_red_flags", ["bank_red_flags", "bank_flags", "red_flags"]),
  ("borrower", ["borrower", "applicant", "name"]),
  ("arv", ["arv", "after_repair_value"]),
  ("purchase_price", ["purchase_price"]),
  ("refurbishment_budget", ["refurbishment_budget", "refurb_budget"]),
  ("monthly_rent", ["monthly_rent", "rent_monthly"]),
  ("dscr", ["dscr"])]

/-- The canonical fields `_canonicalize` treats as numeric (line 113-115). -/
def numericCanonList : List String :=
  ["loan_amount", "property_value", "project_cost", "total_cost",
   "interest_rate_annual", "term_months", "income", "noi", "annual_rent",
   "operating_expenses", "monthly_rent", "dscr", "arv", "purchase_price",
   "refurbishment_budget"]

/-- One iteration of the `_canonicalize` loop for a canonical key: the stored
value and any audit entry. -/
def canonEntry (parsed : Record) (canon : String) (aliases : List String) :
    Val × List String :=
  let val := find_by_alias parsed aliases
  if numericCanonList.contains canon then
    match to_float_safe val, val with
    | some q, _ => (.vFloat q, [])
    | none, some v =>
      (.vNone, ["Field '" ++ canon ++ "' found but could not parse numeric value: '"
                ++ pyStr v ++ "'"])
    | none, none => (.vNone, [])
  else
    match val with
    | some v => (v, [])
    | none => (.vNone, [])

/-- `_canonicalize(parsed)` (`metrics.py` lines 102-131), returning the
canonical dict `p` and the audit list.  The `_raw_parsed` back-pointer is not
read by any computation and is omitted. -/
def canonicalize (parsed : Record) : Record × List String :=
  CANONICAL_KEYS.foldl (fun acc ck =>
    let e := canonEntry parsed ck.1 ck.2
    (dictSet acc.1 ck.1 e.1, acc.2 ++ e.2)) ([], [])

/-- Numeric read from the canonical dict (its numeric fields are stored as
`vFloat` or `vNone` by `_canonicalize`). -/
def pyGetQ (p : Record) (k : String) : Option ℚ :=
  match pyGet p k with
  | some (.vFloat q) => some q
  | some (.vInt n) => some (n : ℚ)
  | _ => none

/-! ## `parser_helper.py`: embedded key/value extraction -/

/-- `ALIAS_TO_CANONICAL` (`parser_helper.py` lines 7-26), in source order. -/
def ALIAS_TO_CANONICAL : List (String × List String) := [
  ("project_cost", ["project_cost", "project cost", "total_project_cost", "total project cost", "total_cost"]),
  ("total_cost", ["total_cost", "total cost", "totalprojectcost"]),
  ("interest_rate_annual", ["interest_rate_annual", "interest rate (annual)", "interest_rate", "interest rate", "rate", "annual_rate"]),
  ("loan_term_months", ["loan_term_months", "loan term months", "term_months", "term", "loan_term", "loan term"]),
  ("term_months", ["term_months", "term", "loan_term_months"]),
  ("loan_amount", ["loan_amount", "loan", "requested_loan", "amount_requested"]),
  ("property_value", ["property_value", "property value", "property_value_estimate", "property"]),
  ("income", ["income", "annual_income"]),
  ("borrower", ["borrower", "applicant", "name"]),
  ("project_cost_alt", ["total_project_cost"]),
  ("arv", ["arv", "after_repair_value"]),
  ("purchase_price", ["purchase_price", "purchase price"]),
  ("refurbishment_budget", ["refurbishment_budget", "refurb budget", "refurbishment"]),
  ("dscr", ["dscr"]),
  ("monthly_rent", ["monthly_rent", "monthly rent", "rent_monthly"]),
  ("operating_costs", ["operating_costs", "operating costs", "operating_expenses"])]

/-- `v.lower().replace("_", " ").replace("-", " ")`. -/
def variantNorm (v : String) : String :=
  ⟨(lowerStr v).data.map (fun c => if c = '_' || c = '-' then ' ' else c)⟩

/-- `_variant_to_canonical` (lines 29-32): a dict built variant-by-variant;
re-inserting an existing variant keeps its position but overwrites its
canonical target. -/
def variantToCanonical : List (String × String) :=
  ALIAS_TO_CANONICAL.foldl
    (fun m p => p.2.foldl (fun m v => insertOrUpdateStr m (variantNorm v) p.1) m) []

/-- `_normalize_key_label(label)` (lines 42-52): first variant matching as a
substring in either direction wins, else punctuation collapses to `_`. -/
def normalize_key_label (label : String) : String :=
  if label = "" then ""
  else
    let n := variantNorm (pyStrip label)
    match variantToCanonical.find? (fun p => strIn p.1 n || strIn n p.1) with
    | some p => p.2
    | none => lowerStr ⟨(pyStrip label).data.map (fun c => if isWordChar c then c else '_')⟩

/-- The quote-stripping step of `_to_number` (lines 62-64), applied to the
trimmed input. -/
def tnStripped (s1 : String) : String :=
  let l := s1.data
  if (l.head? = some '"' ∧ l.getLast? = some '"')
      ∨ (l.head? = some '\'' ∧ l.getLast? = some '\'') then
    pyStrip ⟨(l.drop 1).dropLast⟩
  else s1

/-- The comma/currency/percent cleanup of `_to_number` (line 66). -/
def tnClean (stripped : String) : String :=
  pyStrip ⟨removeChars [',', '£', '$', '%'] stripped.data⟩

/-- The conversion core of `_to_number` (lines 67-88) on the cleaned string,
falling back to the quote-stripped original. -/
def tnOfClean (stripped s_clean : String) : Option Val :=
  if isIntLit s_clean.data then some (.vInt (intLitVal s_clean.data))
  else if isFloatLitDotted s_clean.data then some (.vFloat (floatLitVal s_clean.data))
  else
    match rxSearch numRx s_clean.data with
    | some m =>
      let num := (groupText s_clean.data m 1).data.filter (fun c => c ≠ ',')
      if num.contains '.' then
        match pyFloatOfStr ⟨num⟩ with
        | some q => some (.vFloat q)
        | none => some (.vStr stripped)
      else some (.vInt (intLitVal num))
    | none => some (.vStr stripped)

/-- `_to_number(s)` (lines 55-88); `none` is Python `None`. -/
def to_number (s : String) : Option Val :=
  let s1 := pyStrip s
  if s1 = "" then none
  else tnOfClean (tnStripped s1) (tnClean (tnStripped s1))

/-- `list(dict.fromkeys(keys))`: deduplicate keeping first occurrences. -/
def dedupeAux (seen : List String) : List String → List String
  | [] => []
  | x :: rest =>
    if seen.contains x then dedupeAux seen rest
    else x :: dedupeAux (x :: seen) rest

def dedupeKeys (l : List String) : List String := dedupeAux [] l

/-- The three extraction passes of `extract_embedded_kv` over one string field
(lines 105-139), threading the mutated record and the raw extracted-key log.
The merge guard of the second and third passes,
`parsed.get(canon) in (None, "", parsed.get(canon))`, is a tautology (the
tuple contains the looked-up value itself), so those passes test only that
`canon` is nonempty and overwrite existing values. -/
def extractFromText (txt : List Char) (st : Record × List String) :
    Record × List String :=
  let st1 := (rxFinditer jsonKvRx txt).foldl (fun st m =>
    let canon := normalize_key_label (groupText txt m 1)
    let val := to_number (groupText txt m 2)
    if canon ≠ "" ∧ ¬ dictContains st.1 canon then
      (dictSet st.1 canon (val.getD .vNone), st.2 ++ [canon])
    else st) st
  let st2 := (rxFinditer kvRx txt).foldl (fun st m =>
    let canon := normalize_key_label (groupText txt m 1)
    let val := to_number (groupText txt m 2)
    if canon ≠ "" then (dictSet st.1 canon (val.getD .vNone), st.2 ++ [canon])
    else st) st1
  (rxFinditer inlineRx txt).foldl (fun st m =>
    let canon := normalize_key_label (groupText txt m 1)
    let val := to_number (groupText txt m 2)
    if canon ≠ "" then (dictSet st.1 canon (val.getD .vNone), st.2 ++ [canon])
    else st) st2

/-- `extract_embedded_kv(parsed)` (lines 91-143): scan every string value of
the snapshot of `parsed.items()`, merging discoveries into the record, and
return it with the deduplicated extraction log. -/
def extract_embedded_kv (parsed : Record) : Record × List String :=
  let st := parsed.foldl (fun st kv =>
    match kv.2 with
    | .vStr txt => extractFromText txt.data st
    | _ => st) (parsed, [])
  (st.1, dedupeKeys st.2)

/-! ## `detect_implausible_loan` (`parser_helper.py` lines 146-166) -/

/-- Python `isinstance(v, (int, float))`; `bool` is an `int` subclass. -/
def isNumericVal : Val → Bool
  | .vInt _ => true
  | .vFloat _ => true
  | .vBool _ => true
  | _ => false

def numVal : Val → ℚ
  | .vInt n => (n : ℚ)
  | .vFloat q => q
  | .vBool b => if b then 1 else 0
  | _ => 0

/-- `parsed.get("property_value") or parsed.get("project_cost") or
parsed.get("total_cost")`. -/
def refCost (parsed : Record) : Option Val :=
  pyOrVal (pyGet parsed "property_value")
    (pyOrVal (pyGet parsed "project_cost") (pyGet parsed "total_cost"))

def detect_implausible_loan (parsed : Record) : Bool :=
  match pyGet parsed "loan_amount" with
  | none => false
  | some loan =>
    if isNumericVal loan ∧ 0 < numVal loan then
      if numVal loan < 100 then true
      else
        match refCost parsed with
        | some prop =>
          if valTruthy prop ∧ isNumericVal prop ∧ 0 < numVal prop then
            decide (numVal loan / numVal prop < 1/100)
          else false
        | none => false
    else false

/-! ## `compute_lending_metrics` (`metrics.py` lines 197-417) -/

/-- `_attempt_property_scaling(loan, prop)` (`metrics.py` lines 169-194). -/
def attempt_property_scaling (loan prop : ℚ) : ℚ × String :=
  if 0 < prop ∧ prop < 1000
      ∧ 1/20 ≤ loan / (prop * 1000) ∧ loan / (prop * 1000) ≤ 10 then
    (prop * 1000,
     "Scaled property_value by x1000 (was " ++ floatRepr prop ++ ", now "
       ++ floatRepr (prop * 1000)
       ++ ") because original value was small and produced implausible LTV.")
  else if 0 < prop ∧ prop < 10000
      ∧ 1/20 ≤ loan / (prop * 100) ∧ loan / (prop * 100) ≤ 10 then
    (prop * 100,
     "Scaled property_value by x100 (was " ++ floatRepr prop ++ ", now "
       ++ floatRepr (prop * 100)
       ++ ") because original value produced implausible LTV.")
  else (prop, "")

/-- The rate normalization `if r > 1: r = r / 100.0`, repeated verbatim at
every rate-consuming site (lines 267-269, 281-283, 298-300). -/
def normalizeRate (r : ℚ) : ℚ := if r > 1 then r / 100 else r

/-- Lines 224-236: when the raw LTV exceeds 10, attempt the property
rescaling; adopt the value and log the message when one is produced.  The
truthiness guard `if prop` inside the raw-LTV computation is `pv ≠ 0`. -/
def propScalingStep (loan prop : Option ℚ) (audit : List String) :
    Option ℚ × List String :=
  match loan, prop with
  | some l, some pv =>
    if pv ≠ 0 ∧ l / pv > 10 then
      let r := attempt_property_scaling l pv
      if r.2 ≠ "" then (some r.1, audit ++ [r.2]) else (some pv, audit)
    else (some pv, audit)
  | _, _ => (prop, audit)

/-- Lines 239-244: the possible-field-swap warning.  A zero loan raises
`ZeroDivisionError`, swallowed by the bare `except`, hence the `l ≠ 0` guard. -/
def swapWarnStep (loan prop : Option ℚ) (audit : List String) : List String :=
  match loan, prop with
  | some l, some pv =>
    if 0 < pv ∧ l ≠ 0 ∧ pv / l > 1000 then
      audit ++ ["Property value is orders of magnitude larger than loan — please verify fields were not swapped."]
    else audit
  | _, _ => audit

/-- The LTV guard shape of lines 251-253 (also used for LTC, lines 256-258):
both operands present and the denominator strictly positive. -/
def ltvOf (loan denomv : Option ℚ) : Option ℚ :=
  match loan, denomv with
  | some l, some d => if 0 < d then some (l / d) else none
  | _, _ => none

def sumInterest (rows : List AmortRow) : ℚ :=
  rows.foldl (fun a r => a + r.interest) 0

/-- Lines 262-276: build the schedule when loan and rate are present and the
term is truthy; on an exception the audit gets a note and everything stays
`None` (the exception text is approximated). -/
def amortStage (loan rate term : Option ℚ) :
    Option ℚ × Option ℚ × Option (List AmortRow) × List String :=
  match loan, rate, term with
  | some l, some rt, some t =>
    if t ≠ 0 then
      match amortization_schedule l (normalizeRate rt) (pyInt t) with
      | some (row :: rows) =>
        (some row.payment, some (sumInterest (row :: rows)), some (row :: rows), [])
      | some [] =>
        (none, none, none, ["Failed to build amortization schedule: empty schedule"])
      | none =>
        (none, none, none, ["Failed to build amortization schedule: invalid term or rate"])
    else (none, none, none, [])
  | _, _, _ => (none, none, none, [])

/-- Lines 279-292: the direct level-payment fallback, with the division-by-zero
exits of `loan / n`, `0.0 ** -n` and a vanishing denominator modelled as the
caught exception path. -/
def fallbackAmortStage (loan rate term : Option ℚ) :
    Option ℚ × Option ℚ × List String :=
  match loan, rate, term with
  | some l, some rt, some t =>
    if t ≠ 0 then
      let r := normalizeRate rt
      let n := pyInt t
      if r = 0 then
        if n = 0 then (none, none, ["Fallback amortising calc failed: division by zero"])
        else (some (l / (n : ℚ)), some (l / (n : ℚ) * (n : ℚ) - l), [])
      else
        let rm := r / 12
        if 1 + rm = 0 ∧ 0 < n then
          (none, none, ["Fallback amortising calc failed: division by zero"])
        else
          let denom := 1 - (1 + rm) ^ (-n)
          if denom = 0 then
            (none, none, ["Fallback amortising calc failed: division by zero"])
          else (some (l * (r / 12) / denom), some (l * (r / 12) / denom * (n : ℚ) - l), [])
    else (none, none, [])
  | _, _, _ => (none, none, [])

/-- Lines 296-304: interest-only (bridging) payment. -/
def monthlyInterestOnlyOf (loan rate : Option ℚ) : Option ℚ :=
  match loan, rate with
  | some l, some rt => some (l * normalizeRate rt / 12)
  | _, _ => none

/-- Lines 314-330: NOI resolution order (explicit, rent minus expenses,
income proxy), with the two provenance flags. -/
def noiStage (p : Record) : Option ℚ × Bool × Bool :=
  match pyGetQ p "noi" with
  | some q => (some q, false, false)
  | none =>
    match pyGetQ p "annual_rent" with
    | some ar =>
      -- `(operating_expenses or 0.0)`: numerically the stored value or zero
      let opex := match pyGetQ p "operating_expenses" with
        | some x => x
        | none => 0
      (some (ar - opex), true, false)
    | none =>
      match pyGetQ p "income" with
      | some inc => (some (inc * (3/10)), false, true)
      | none => (none, false, false)

/-- Lines 336-342: DSCR needs a non-`None` NOI and a truthy, then strictly
positive, annual debt service. -/
def dscrOf (noi ads : Option ℚ) : Option ℚ :=
  match noi, ads with
  | some nv, some a =>
    if a ≠ 0 then (if 0 < a then some (nv / a) else none) else none
  | _, _ => none

/-- LTV risk component (lines 357-365), fed the rounded `lm["ltv"]`. -/
def ltvRiskOf : Option ℚ → ℚ
  | none => 0
  | some v => if v < 3/5 then 0 else if v < 4/5 then 1/2 else 1

/-- DSCR risk component (lines 367-376). -/
def dscrRiskOf : Option ℚ → ℚ
  | none => 1
  | some d => if 5/4 ≤ d then 0 else if 1 ≤ d then 1/2 else 1

/-- `risk_score` (lines 380-381): weighted sum clamped to `[0, 1]`. -/
def scoreOf (a b c : ℚ) : ℚ :=
  min (max (1/2 * a + 7/20 * b + 3/20 * c) 0) 1

/-- `risk_category` (line 383), from the clamped (unrounded) score. -/
def categoryOf (s : ℚ) : String :=
  if 7/10 ≤ s then "High" else if 2/5 ≤ s then "Medium" else "Low"

/-- Python `f"{x:.2f}"` (round-half-even to two decimals). -/
def formatFixed2 (q : ℚ) : String :=
  let m := roundHalfEven (q * 100)
  let sign := if m < 0 then "-" else ""
  let a := m.natAbs
  sign ++ toString (a / 100) ++ "." ++
    ((if a % 100 < 10 then "0" else "") ++ toString (a % 100))

/-- Lines 386-400: the deterministic reasons list. -/
def riskReasonsOf (ltv dscrA dscrI : Option ℚ) (flagsPresent : Bool) :
    List String :=
  let r1 : List String := match ltv with
    | some v =>
      if 17/20 ≤ v then ["High LTV (" ++ formatFixed2 v ++ ")"]
      else if 3/4 ≤ v then ["Elevated LTV (" ++ formatFixed2 v ++ ")"]
      else []
    | none => []
  let r2 : List String := match dscrA with
    | some d => if d < 1 then ["Amortising DSCR below 1.0 (" ++ formatFixed2 d ++ ")"] else []
    | none => []
  let r3 : List String := match dscrI with
    | some d => if d < 1 then ["Interest-only DSCR below 1.0 (" ++ formatFixed2 d ++ ")"] else []
    | none => []
  let r4 : List String := if flagsPresent then ["Policy / bank flags present"] else []
  let rs := r1 ++ r2 ++ r3 ++ r4
  if rs.isEmpty then ["No automated flags detected"] else rs

/-- The `lending_metrics` mapping assembled by `compute_lending_metrics`,
with fields in dict-insertion order (`annual_debt_service_interest_only`
is the source's `annual_debt_service_io` key). -/
structure LM where
  input_audit_notes : List String
  ltv : Option ℚ
  ltc : Option ℚ
  monthly_amortising_payment : Option ℚ
  monthly_interest_only_payment : Option ℚ
  total_interest : Option ℚ
  annual_debt_service_amortising : Option ℚ
  annual_debt_service_interest_only : Option ℚ
  noi_estimated_from_rent : Bool
  noi_estimated_from_income_proxy : Bool
  noi : Option ℚ
  dscr_amortising : Option ℚ
  dscr_interest_only : Option ℚ
  policy_flags : Val
  bank_red_flags : Val
  risk_score_computed : ℚ
  risk_category : String
  risk_reasons : List String
  amortization_preview_rows : Option (List AmortRow)
  amortization_total_interest : Option ℚ

def optQVal : Option ℚ → Val
  | some q => .vFloat q
  | none => .vNone

def rowToVal (r : AmortRow) : Val :=
  .vDict [("month", .vInt (r.month : ℤ)), ("payment", .vFloat r.payment),
          ("interest", .vFloat r.interest), ("principal", .vFloat r.principal),
          ("balance", .vFloat r.balance)]

/-- The `lending_metrics` dict as a Python value (insertion order of the
assignments in lines 248-412; the provenance flags only exist when set). -/
def lmToVal (lm : LM) : Val :=
  .vDict ([("input_audit_notes", .vList (lm.input_audit_notes.map .vStr)),
    ("ltv", optQVal lm.ltv), ("ltc", optQVal lm.ltc),
    ("monthly_amortising_payment", optQVal lm.monthly_amortising_payment),
    ("monthly_interest_only_payment", optQVal lm.monthly_interest_only_payment),
    ("total_interest", optQVal lm.total_interest),
    ("annual_debt_service_amortising", optQVal lm.annual_debt_service_amortising),
    ("annual_debt_service_io", optQVal lm.annual_debt_service_interest_only)]
    ++ (if lm.noi_estimated_from_rent then [("noi_estimated_from_rent", Val.vBool true)] else [])
    ++ (if lm.noi_estimated_from_income_proxy then [("noi_estimated_from_income_proxy", Val.vBool true)] else [])
    ++ [("noi", optQVal lm.noi),
    ("dscr_amortising", optQVal lm.dscr_amortising),
    ("dscr_interest_only", optQVal lm.dscr_interest_only),
    ("policy_flags", lm.policy_flags),
    ("bank_red_flags", lm.bank_red_flags),
    ("risk_score_computed", .vFloat lm.risk_score_computed),
    ("risk_category", .vStr lm.risk_category),
    ("risk_reasons", .vList (lm.risk_reasons.map .vStr)),
    ("amortization_preview_rows",
      match lm.amortization_preview_rows with
      | some rows => .vList (rows.map rowToVal)
      | none => .vNone),
    ("amortization_total_interest", optQVal lm.amortization_total_interest)])

/-- The result of `compute_lending_metrics`: the returned metrics, the final
audit list, and the caller's record after the function's two writes
(`parsed["input_audit"]` and `parsed["lending_metrics"]`, lines 415-416). -/
structure ComputeResult where
  lm : LM
  audit : List String
  parsedOut : Record

/-! `compute_lending_metrics(parsed)` (`metrics.py` lines 197-417), staged as
one definition per intermediate value of the function body.  Each stage is a
pure function of `parsed`, so re-deriving a stage from `parsed` is identical
to the sharing in the Python function. -/

/-- The canonical dict `p` (line 204). -/
def canonOf (parsed : Record) : Record := (canonicalize parsed).1

/-- `loan` (line 206). -/
def loanOf (parsed : Record) : Option ℚ := pyGetQ (canonOf parsed) "loan_amount"

/-- `prop` before scaling (line 207). -/
def prop0Of (parsed : Record) : Option ℚ := pyGetQ (canonOf parsed) "property_value"

/-- `project_cost` (line 208). -/
def projectCostOf (parsed : Record) : Option ℚ :=
  pyOrQ (pyGetQ (canonOf parsed) "project_cost") (pyGetQ (canonOf parsed) "total_cost")

/-- `rate` (line 209). -/
def rateOf (parsed : Record) : Option ℚ :=
  pyGetQ (canonOf parsed) "interest_rate_annual"

/-- `term_months` (line 210). -/
def termOf (parsed : Record) : Option ℚ := pyGetQ (canonOf parsed) "term_months"

/-- The audit list after the missing-field checks (lines 212-222). -/
def audit1Of (parsed : Record) : List String :=
  (canonicalize parsed).2
    ++ (if loanOf parsed = none then ["Missing or invalid loan_amount"] else [])
    ++ (if prop0Of parsed = none then ["Missing or invalid property_value"] else [])
    ++ (if projectCostOf parsed = none then ["project_cost / total_cost not provided"] else [])
    ++ (if rateOf parsed = none then ["Interest rate not provided or invalid"] else [])
    ++ (if termOf parsed = none then ["Loan term (months) not provided or invalid"] else [])

/-- `prop` after the scaling step (lines 224-236). -/
def propOf (parsed : Record) : Option ℚ :=
  (propScalingStep (loanOf parsed) (prop0Of parsed) (audit1Of parsed)).1

/-- The audit list after scaling and the swap warning (lines 224-244),
snapshotted into `lm["input_audit_notes"]` (line 248). -/
def audit2Of (parsed : Record) : List String :=
  swapWarnStep (loanOf parsed) (propOf parsed)
    (propScalingStep (loanOf parsed) (prop0Of parsed) (audit1Of parsed)).2

/-- `lm["ltv"]` (lines 251-254). -/
def lmLtvOf (parsed : Record) : Option ℚ :=
  (ltvOf (loanOf parsed) (propOf parsed)).map (roundTo 4)

/-- `lm["ltc"]` (lines 256-259). -/
def lmLtcOf (parsed : Record) : Option ℚ :=
  (ltvOf (loanOf parsed) (projectCostOf parsed)).map (roundTo 4)

/-- The schedule attempt (lines 262-276). -/
def st1Of (parsed : Record) :
    Option ℚ × Option ℚ × Option (List AmortRow) × List String :=
  amortStage (loanOf parsed) (rateOf parsed) (termOf parsed)

/-- Monthly amortising payment and total interest after the fallback
(lines 279-292), with the fallback's audit notes. -/
def st2Of (parsed : Record) : Option ℚ × Option ℚ × List String :=
  if (st1Of parsed).1 = none then
    fallbackAmortStage (loanOf parsed) (rateOf parsed) (termOf parsed)
  else ((st1Of parsed).1, (st1Of parsed).2.1, [])

/-- The final audit list (all appends up to line 344). -/
def audit4Of (parsed : Record) : List String :=
  (audit2Of parsed ++ (st1Of parsed).2.2.2) ++ (st2Of parsed).2.2

def lmMonthlyAmOf (parsed : Record) : Option ℚ :=
  (st2Of parsed).1.map (roundTo 2)

def lmMonthlyIoOf (parsed : Record) : Option ℚ :=
  (monthlyInterestOnlyOf (loanOf parsed) (rateOf parsed)).map (roundTo 2)

def lmTotalInterestOf (parsed : Record) : Option ℚ :=
  (st2Of parsed).2.1.map (roundTo 2)

/-- `lm["annual_debt_service_amortising"]` (line 310). -/
def adsAmOf (parsed : Record) : Option ℚ :=
  if qTruthy (lmMonthlyAmOf parsed) then
    (lmMonthlyAmOf parsed).map (fun m => roundTo 2 (m * 12))
  else none

/-- `lm["annual_debt_service_io"]` (line 311). -/
def adsIoOf (parsed : Record) : Option ℚ :=
  if qTruthy (lmMonthlyIoOf parsed) then
    (lmMonthlyIoOf parsed).map (fun m => roundTo 2 (m * 12))
  else none

def lmNoiOf (parsed : Record) : Option ℚ :=
  (noiStage (canonOf parsed)).1.map (roundTo 2)

def dscrAmOf (parsed : Record) : Option ℚ :=
  (dscrOf (lmNoiOf parsed) (adsAmOf parsed)).map (roundTo 3)

def dscrIoOf (parsed : Record) : Option ℚ :=
  (dscrOf (lmNoiOf parsed) (adsIoOf parsed)).map (roundTo 3)

/-- `policy_flags` (line 351). -/
def policyFlagsOf (parsed : Record) : Val :=
  (pyOrVal (pyGet parsed "policy_flags")
    (pyOrVal (pyGet parsed "flags") (some (.vList [])))).getD (.vList [])

/-- `bank_red_flags` (line 352). -/
def bankRedFlagsOf (parsed : Record) : Val :=
  (pyOrVal (pyGet parsed "bank_red_flags") (some (.vList []))).getD (.vList [])

def flagsPresentOf (parsed : Record) : Bool :=
  valTruthy (policyFlagsOf parsed) || valTruthy (bankRedFlagsOf parsed)

/-- `dscr_for_score` (line 367). -/
def dscrForScoreOf (parsed : Record) : Option ℚ :=
  match dscrAmOf parsed with
  | some d => some d
  | none => dscrIoOf parsed

/-- The clamped `risk_score` (lines 380-381). -/
def scoreValOf (parsed : Record) : ℚ :=
  scoreOf (ltvRiskOf (lmLtvOf parsed)) (dscrRiskOf (dscrForScoreOf parsed))
    (if flagsPresentOf parsed then 1 else 0)

/-- The returned `lending_metrics` mapping. -/
def lmOf (parsed : Record) : LM := {
  input_audit_notes := audit2Of parsed,
  ltv := lmLtvOf parsed, ltc := lmLtcOf parsed,
  monthly_amortising_payment := lmMonthlyAmOf parsed,
  monthly_interest_only_payment := lmMonthlyIoOf parsed,
  total_interest := lmTotalInterestOf parsed,
  annual_debt_service_amortising := adsAmOf parsed,
  annual_debt_service_interest_only := adsIoOf parsed,
  noi_estimated_from_rent := (noiStage (canonOf parsed)).2.1,
  noi_estimated_from_income_proxy := (noiStage (canonOf parsed)).2.2,
  noi := lmNoiOf parsed,
  dscr_amortising := dscrAmOf parsed,
  dscr_interest_only := dscrIoOf parsed,
  policy_flags := policyFlagsOf parsed,
  bank_red_flags := bankRedFlagsOf parsed,
  risk_score_computed := roundTo 3 (scoreValOf parsed),
  risk_category := categoryOf (scoreValOf parsed),
  risk_reasons := riskReasonsOf (lmLtvOf parsed) (dscrAmOf parsed)
    (dscrIoOf parsed) (flagsPresentOf parsed),
  amortization_preview_rows := (st1Of parsed).2.2.1.map (fun rows => rows.take 12),
  amortization_total_interest :=
    (st1Of parsed).2.2.1.map (fun rows => roundTo 2 (sumInterest rows)) }

/-- `compute_lending_metrics(parsed)` (`metrics.py` lines 197-417). -/
def compute_lending_metrics (parsed : Record) : ComputeResult :=
  { lm := lmOf parsed, audit := audit4Of parsed,
    parsedOut := dictSet
      (dictSet parsed "input_audit" (.vList ((audit4Of parsed).map .vStr)))
      "lending_metrics" (lmToVal (lmOf parsed)) }

/-! ## Concrete records used by the claim theorems -/

/-- C2's failing input: a canonical field already set to `5.5` next to a notes
field embedding the same key with value `9.5`. -/
def recOverwrite : Record :=
  [("interest_rate_annual", .vFloat (11/2)),
   ("notes", .vStr "interest_rate_annual: 9.5")]

/-- Scenario D of the spec (claim C8). -/
def recScenarioD : Record :=
  [("notes", .vStr "\"interest_rate_annual\": 9.5, \"loan_term_months\": 12")]

/-- The amended claim C3's rescaling rule, in the corrected spec wording: when
the raw LTV exceeds 10, multiply the property value by 1000 only when it lies
in (0, 1000) and the rescaled LTV falls within [0.05, 10]; otherwise by 100
only when it lies in (0, 10000) under the same acceptance test; otherwise
leave it unchanged. -/
def scalingSpecProperty (loan prop : ℚ) : ℚ :=
  if loan / prop > 10 then
    if 0 < prop ∧ prop < 1000
        ∧ 1/20 ≤ loan / (prop * 1000) ∧ loan / (prop * 1000) ≤ 10 then prop * 1000
    else if 0 < prop ∧ prop < 10000
        ∧ 1/20 ≤ loan / (prop * 100) ∧ loan / (prop * 100) ≤ 10 then prop * 100
    else prop
  else prop

/-! ## Shared lemmas -/

section Proofs

/- Batteries seals the rational operations; reopening them lets concrete
evaluations go through `decide` and `rfl`. -/
attribute [local semireducible] Rat.mul Rat.add Rat.sub Rat.inv Rat.ofScientific

theorem dictLookup_dictSet_self (d : Record) (k : String) (v : Val) :
    dictLookup (dictSet d k v) k = some v := by
  induction d with
  | nil => simp [dictSet, dictLookup]
  | cons hd tl ih =>
    obtain ⟨k0, v0⟩ := hd
    by_cases h : k0 = k
    · simp [dictSet, dictLookup, h]
    · simp [dictSet, dictLookup, h, ih]

theorem dictLookup_dictSet_ne (d : Record) (k k' : String) (v : Val)
    (h : k' ≠ k) : dictLookup (dictSet d k v) k' = dictLookup d k' := by
  induction d with
  | nil => simp [dictSet, dictLookup, Ne.symm h]
  | cons hd tl ih =>
    obtain ⟨k0, v0⟩ := hd
    by_cases h0 : k0 = k
    · subst h0
      simp [dictSet, dictLookup, Ne.symm h]
    · simp [dictSet, dictLookup, h0, ih]

theorem getLast?_cons_of_ne_nil {α : Type} (a : α) (l : List α) (h : l ≠ []) :
    (a :: l).getLast? = l.getLast? := by
  cases l with
  | nil => exact absurd rfl h
  | cons x xs => simp [List.getLast?_cons_cons]

theorem amortLoop_length (r_month payment : ℚ) :
    ∀ (k m : ℕ) (b : ℚ), (amortLoop r_month payment k m b).length = k := by
  intro k
  induction k using Nat.strong_induction_on with
  | _ k ih =>
    match k with
    | 0 => intro m b; simp [amortLoop]
    | 1 => intro m b; simp [amortLoop]
    | (k + 2) =>
      intro m b
      simp only [amortLoop, List.length_cons]
      rw [ih (k + 1) (by omega)]

theorem amortLoop_last_balance (r_month payment : ℚ) :
    ∀ (k m : ℕ) (b : ℚ), 1 ≤ k →
      ∃ row, (amortLoop r_month payment k m b).getLast? = some row ∧
        row.balance = 0 := by
  intro k
  induction k using Nat.strong_induction_on with
  | _ k ih =>
    match k with
    | 0 => intro m b h; omega
    | 1 =>
      intro m b _
      refine ⟨_, rfl, ?_⟩
      show roundTo 2 0 = 0
      decide
    | (k + 2) =>
      intro m b _
      obtain ⟨row, hlast, hbal⟩ :=
        ih (k + 1) (by omega) (m + 1)
          (max (b - (payment - b * r_month)) 0) (by omega)
      refine ⟨row, ?_, hbal⟩
      have hne : amortLoop r_month payment (k + 1) (m + 1)
          (max (b - (payment - b * r_month)) 0) ≠ [] := by
        intro hcon
        have hL := amortLoop_length r_month payment (k + 1) (m + 1)
          (max (b - (payment - b * r_month)) 0)
        rw [hcon] at hL
        simp at hL
      calc (amortLoop r_month payment (k + 2) m b).getLast?
          = (amortLoop r_month payment (k + 1) (m + 1)
              (max (b - (payment - b * r_month)) 0)).getLast? := by
            exact getLast?_cons_of_ne_nil _ _ hne
        _ = some row := hlast

/-! ## Claim C1 -/

/-- C1: for every principal > 0, annual rate `0 ≤ r < 1` and term of at least
one month, `amortization_schedule` succeeds with exactly `term_months` rows,
and the last row's balance is exactly 0. -/
theorem amortization_schedule_terminates_at_zero
    (principal rate : ℚ) (term_months : ℤ)
    (hP : 0 < principal) (hr0 : 0 ≤ rate) (hr1 : rate < 1)
    (hn : 1 ≤ term_months) :
    ∃ rows, amortization_schedule principal rate term_months = some rows ∧
      (rows.length : ℤ) = term_months ∧
      ∃ last, rows.getLast? = some last ∧ last.balance = 0 := by
  have hterm : ¬ term_months ≤ 0 := by omega
  have hn1 : 1 ≤ term_months.toNat := by omega
  have hcast : (term_months.toNat : ℤ) = term_months := by omega
  by_cases hz : rate = 0
  · subst hz
    have heq : amortization_schedule principal 0 term_months
        = some (amortLoop 0 (principal / (term_months.toNat : ℚ))
            term_months.toNat 1 principal) := by
      unfold amortization_schedule
      rw [if_neg hterm, if_pos rfl]
    refine ⟨_, heq, ?_, ?_⟩
    · rw [amortLoop_length]; exact hcast
    · exact amortLoop_last_balance _ _ _ _ _ hn1
  · have hrpos : 0 < rate := lt_of_le_of_ne hr0 (Ne.symm hz)
    have hrm : (0 : ℚ) < rate / 12 := by positivity
    have h1rm : (1 : ℚ) < 1 + rate / 12 := by linarith
    have h1rm0 : (1 : ℚ) + rate / 12 ≠ 0 := by linarith
    have hpow : (1 : ℚ) < (1 + rate / 12) ^ term_months.toNat :=
      one_lt_pow₀ h1rm (by omega)
    have hzp : (1 + rate / 12) ^ (-(term_months.toNat : ℤ)) < 1 := by
      rw [zpow_neg, zpow_natCast]
      rw [inv_lt_one_iff₀]
      right
      exact hpow
    have hden : (1 : ℚ) - (1 + rate / 12) ^ (-(term_months.toNat : ℤ)) ≠ 0 := by
      have h0 : (0 : ℚ) < 1 - (1 + rate / 12) ^ (-(term_months.toNat : ℤ)) := by
        linarith
      linarith
    have heq : amortization_schedule principal rate term_months
        = some (amortLoop (rate / 12)
            (principal * (rate / 12) /
              (1 - (1 + rate / 12) ^ (-(term_months.toNat : ℤ))))
            term_months.toNat 1 principal) := by
      unfold amortization_schedule
      rw [if_neg hterm, if_neg hz, if_neg h1rm0, if_neg hden]
    refine ⟨_, heq, ?_, ?_⟩
    · rw [amortLoop_length]; exact hcast
    · exact amortLoop_last_balance _ _ _ _ _ hn1

/-- Witness for C1 at `principal = 1000`, `rate = 1/2`, `term = 2`. -/
theorem amortization_schedule_terminates_at_zero_witness :
    ∃ rows, amortization_schedule 1000 (1/2) 2 = some rows ∧
      (rows.length : ℤ) = 2 ∧
      ∃ last, rows.getLast? = some last ∧ last.balance = 0 :=
  amortization_schedule_terminates_at_zero 1000 (1/2) 2
    (by norm_num) (by norm_num) (by norm_num) (by norm_num)

/-! ## Claim C2 -/

set_option maxRecDepth 400000 in
set_option maxHeartbeats 2000000 in
/-- C2: `extract_embedded_kv` overwrites a canonical field that already holds
the non-empty value `5.5` with the value `9.5` found in the notes text — the
merge guard `parsed.get(canon) in (None, "", parsed.get(canon))` is vacuous. -/
theorem extract_embedded_kv_overwrites_nonempty_field :
    dictLookup recOverwrite "interest_rate_annual" = some (.vFloat (11/2)) ∧
    dictLookup (extract_embedded_kv recOverwrite).1 "interest_rate_annual"
      = some (.vFloat (19/2)) ∧
    (11/2 : ℚ) ≠ 19/2 := by
  refine ⟨rfl, rfl, by norm_num⟩

/-! ## Claim C8 -/

set_option maxRecDepth 400000 in
set_option maxHeartbeats 2000000 in
/-- C8 as stated is false: after `extract_embedded_kv` on Scenario D the
record has no `loan_term_months` key at all, and `interest_rate_annual` holds
the integer 9 (so `record['interest_rate_annual'] == 9.5` fails). -/
theorem scenario_d_counterexample :
    dictLookup (extract_embedded_kv recScenarioD).1 "loan_term_months" = none ∧
    dictLookup (extract_embedded_kv recScenarioD).1 "interest_rate_annual"
      = some (.vInt 9) ∧
    ((9 : ℚ) ≠ 19/2) := by
  refine ⟨rfl, rfl, by norm_num⟩

set_option maxRecDepth 400000 in
set_option maxHeartbeats 2000000 in
/-- C8 (amended): on Scenario D the extractor stores `interest_rate_annual = 9`
and `term_months = 1` — the label `loan_term_months` is unified to the
canonical `term_months`, and the generic `key: value` pass (whose merge guard
is vacuous) overwrites the JSON-pass values with its one-character value
matches — and `extracted_keys` is exactly
`[interest_rate_annual, term_months]`, each once. -/
theorem scenario_d_actual_behaviour :
    (extract_embedded_kv recScenarioD).1 =
      [("notes", .vStr "\"interest_rate_annual\": 9.5, \"loan_term_months\": 12"),
       ("interest_rate_annual", .vInt 9), ("term_months", .vInt 1)] ∧
    (extract_embedded_kv recScenarioD).2 = ["interest_rate_annual", "term_months"] := by
  refine ⟨rfl, rfl⟩

/-! ## Claim C3 -/

/-- C3 as stated is false: with loan 1000000 and property value 12000 the raw
LTV exceeds 10 and the ×1000 multiplier would bring the LTV to 1/12, inside
[0.05, 10] — yet the scaling step of `compute_lending_metrics` (lines
224-236) leaves the property value unchanged and logs nothing, because the
code only tries ×1000 below 1000 and ×100 below 10000. -/
theorem property_scaling_claim_counterexample :
    (1000000 : ℚ) / 12000 > 10 ∧
    (1/20 : ℚ) ≤ 1000000 / (12000 * 1000) ∧
    (1000000 : ℚ) / (12000 * 1000) ≤ 10 ∧
    propScalingStep (some 1000000) (some 12000) [] = (some 12000, []) := by
  refine ⟨by norm_num, by norm_num, by norm_num, rfl⟩

theorem str_append_ne_empty (a b : String) (hb : b.length ≠ 0) :
    (a ++ b) ≠ "" := by
  intro h
  have hl := congrArg String.length h
  rw [String.length_append] at hl
  simp only [String.length_empty] at hl
  omega

/-- The message of `_attempt_property_scaling` is empty exactly when neither
guarded rescaling branch fires. -/
theorem scaling_msg_empty_iff (loan prop : ℚ) :
    (attempt_property_scaling loan prop).2 = "" ↔
      ¬(0 < prop ∧ prop < 1000
          ∧ 1/20 ≤ loan / (prop * 1000) ∧ loan / (prop * 1000) ≤ 10)
      ∧ ¬(0 < prop ∧ prop < 10000
          ∧ 1/20 ≤ loan / (prop * 100) ∧ loan / (prop * 100) ≤ 10) := by
  unfold attempt_property_scaling
  split_ifs with h1 h2
  · simp only [iff_iff_implies_and_implies]
    constructor
    · intro h
      exact absurd h (str_append_ne_empty _ _ (by decide))
    · intro h
      exact absurd h1 h.1
  · simp only [iff_iff_implies_and_implies]
    constructor
    · intro h
      exact absurd h (str_append_ne_empty _ _ (by decide))
    · intro h
      exact absurd h2 h.2
  · simp only [true_iff, eq_self_iff_true]
    exact ⟨h1, h2⟩

theorem attempt_scaling_fst (loan prop : ℚ) :
    (attempt_property_scaling loan prop).1 =
      if 0 < prop ∧ prop < 1000
          ∧ 1/20 ≤ loan / (prop * 1000) ∧ loan / (prop * 1000) ≤ 10 then
        prop * 1000
      else if 0 < prop ∧ prop < 10000
          ∧ 1/20 ≤ loan / (prop * 100) ∧ loan / (prop * 100) ≤ 10 then
        prop * 100
      else prop := by
  unfold attempt_property_scaling
  split_ifs <;> rfl

/-- C3 (amended): in the scaling step of `compute_lending_metrics` (lines
224-236 plus `_attempt_property_scaling`), for a positive property value the
LTV input is the property value corrected by the guarded rule
`scalingSpecProperty`: rescaling is attempted only when the raw LTV exceeds
10, by ×1000 only for property values in (0, 1000), else by ×100 only for
values in (0, 10000), each multiplier accepted only when the rescaled LTV
lies in [0.05, 10]; otherwise the value is left unchanged. -/
theorem property_scaling_guarded (loan prop : ℚ) (hp : 0 < prop)
    (audit : List String) :
    (ltvOf (some loan) ((propScalingStep (some loan) (some prop) audit).1)).map
        (roundTo 4)
      = some (roundTo 4 (loan / scalingSpecProperty loan prop)) := by
  have hp0 : prop ≠ 0 := ne_of_gt hp
  have hstep : (propScalingStep (some loan) (some prop) audit).1
      = if prop ≠ 0 ∧ loan / prop > 10 then
          (if (attempt_property_scaling loan prop).2 ≠ "" then
            some (attempt_property_scaling loan prop).1
          else some prop)
        else some prop := by
    show (if prop ≠ 0 ∧ loan / prop > 10 then
        (if (attempt_property_scaling loan prop).2 ≠ "" then
          (some (attempt_property_scaling loan prop).1,
            audit ++ [(attempt_property_scaling loan prop).2])
        else (some prop, audit))
      else (some prop, audit)).1 = _
    split_ifs <;> rfl
  rw [hstep]
  unfold scalingSpecProperty
  by_cases htrig : loan / prop > 10
  · rw [if_pos ⟨hp0, htrig⟩, if_pos htrig]
    by_cases hmsg : (attempt_property_scaling loan prop).2 = ""
    · rw [if_neg (by simpa using hmsg)]
      obtain ⟨hn1, hn2⟩ := (scaling_msg_empty_iff loan prop).mp hmsg
      rw [if_neg hn1, if_neg hn2]
      simp [ltvOf, hp]
    · rw [if_pos (by simpa using hmsg)]
      rw [attempt_scaling_fst]
      by_cases h1 : 0 < prop ∧ prop < 1000
          ∧ 1/20 ≤ loan / (prop * 1000) ∧ loan / (prop * 1000) ≤ 10
      · rw [if_pos h1]
        have hpos : (0 : ℚ) < prop * 1000 := by linarith
        simp [ltvOf, hpos]
      · by_cases h2 : 0 < prop ∧ prop < 10000
            ∧ 1/20 ≤ loan / (prop * 100) ∧ loan / (prop * 100) ≤ 10
        · rw [if_neg h1, if_pos h2]
          have hpos : (0 : ℚ) < prop * 100 := by linarith
          simp [ltvOf, hpos]
        · exact absurd ((scaling_msg_empty_iff loan prop).mpr ⟨h1, h2⟩)
            (by simpa using hmsg)
  · rw [if_neg (by tauto), if_neg htrig]
    simp [ltvOf, hp]

/-- Witness for the amended C3 at loan 240000, property 330 (the ×1000 case
of the spec's Scenario A). -/
theorem property_scaling_guarded_witness :
    (ltvOf (some 240000)
        ((propScalingStep (some 240000) (some 330) []).1)).map (roundTo 4)
      = some (roundTo 4 ((240000 : ℚ) / scalingSpecProperty 240000 330)) :=
  property_scaling_guarded 240000 330 (by decide) []

/-! ## Claim C4 -/

/-! Supporting lemmas: every character of the cleaned strings comes from the
original input, and a digit-free subject defeats each digit-anchored literal
test and regex used by the two coercion functions. -/

theorem mem_of_mem_pyStrip {c : Char} {s : String} (h : c ∈ (pyStrip s).data) :
    c ∈ s.data := by
  have h' : c ∈ ((s.data.dropWhile isWs).reverse.dropWhile isWs).reverse := h
  exact (List.dropWhile_sublist _).subset
    (List.mem_reverse.mp ((List.dropWhile_sublist _).subset (List.mem_reverse.mp h')))

theorem mem_of_mem_removeChars {c : Char} {cs l : List Char}
    (h : c ∈ removeChars cs l) : c ∈ l :=
  (List.filter_sublist _).subset h

theorem mem_of_mem_tnStripped {c : Char} {t : String}
    (h : c ∈ (tnStripped t).data) : c ∈ t.data := by
  by_cases hq : (t.data.head? = some '"' ∧ t.data.getLast? = some '"')
      ∨ (t.data.head? = some '\'' ∧ t.data.getLast? = some '\'')
  · have e : tnStripped t = pyStrip ⟨(t.data.drop 1).dropLast⟩ := by
      unfold tnStripped
      exact if_pos hq
    rw [e] at h
    exact List.drop_subset _ _ ((List.dropLast_sublist _).subset (mem_of_mem_pyStrip h))
  · have e : tnStripped t = t := by
      unfold tnStripped
      exact if_neg hq
    rwa [e] at h

theorem mem_of_mem_tnClean {c : Char} {t : String}
    (h : c ∈ (tnClean t).data) : c ∈ t.data :=
  mem_of_mem_removeChars (mem_of_mem_pyStrip h)

theorem allDigits_false {l : List Char} (h : ∀ c ∈ l, c.isDigit = false) :
    allDigits l = false := by
  cases l with
  | nil => rfl
  | cons c rest =>
    have hc : c.isDigit = false := h c (List.mem_cons_self _ _)
    simp [allDigits, hc]

theorem isIntLit_false {l : List Char} (h : ∀ c ∈ l, c.isDigit = false) :
    isIntLit l = false := by
  unfold isIntLit
  split
  · next rest => exact allDigits_false (fun d hd => h d (List.mem_cons_of_mem _ hd))
  · next => exact allDigits_false h

theorem takeWhile_digit_nil {l : List Char} (h : ∀ c ∈ l, c.isDigit = false) :
    l.takeWhile Char.isDigit = [] := by
  cases l with
  | nil => rfl
  | cons c rest =>
    rw [List.takeWhile_cons, h c (List.mem_cons_self _ _)]
    simp

theorem dropWhile_digit_self {l : List Char} (h : ∀ c ∈ l, c.isDigit = false) :
    l.dropWhile Char.isDigit = l := by
  cases l with
  | nil => rfl
  | cons c rest =>
    rw [List.dropWhile_cons, h c (List.mem_cons_self _ _)]
    simp

theorem dottedCore_false {l : List Char} (h : ∀ c ∈ l, c.isDigit = false) :
    dottedCore l = false := by
  show (match l.dropWhile Char.isDigit with
    | '.' :: b => !(l.takeWhile Char.isDigit).isEmpty && allDigits b
    | _ => false) = false
  rw [dropWhile_digit_self h, takeWhile_digit_nil h]
  split <;> rfl

theorem isFloatLitDotted_false {l : List Char} (h : ∀ c ∈ l, c.isDigit = false) :
    isFloatLitDotted l = false := by
  unfold isFloatLitDotted
  split
  · next rest => exact dottedCore_false (fun d hd => h d (List.mem_cons_of_mem _ hd))
  · next => exact dottedCore_false h

theorem mrun_cls_digit_none {s : List Char} (hs : ∀ c ∈ s, c.isDigit = false)
    (fuel i : ℕ) (caps : Caps) (k : ℕ → Caps → Option (ℕ × Caps)) :
    mrun fuel (.cls isDigitChar) s i caps k = none := by
  cases fuel with
  | zero => rfl
  | succ n =>
    show (match s.get? i with
      | some c => if isDigitChar c = true then k (i + 1) caps else none
      | none => none) = none
    cases hg : s.get? i with
    | none => rfl
    | some c =>
      show (if isDigitChar c = true then k (i + 1) caps else none) = none
      have hc : isDigitChar c = false := hs c (List.get?_mem hg)
      rw [hc]
      simp

theorem mrun_seq_digit_none {s : List Char} (hs : ∀ c ∈ s, c.isDigit = false)
    (fuel : ℕ) (r : RE) (i : ℕ) (caps : Caps)
    (k : ℕ → Caps → Option (ℕ × Caps)) :
    mrun fuel (.seq (.cls isDigitChar) r) s i caps k = none := by
  cases fuel with
  | zero => rfl
  | succ n =>
    show mrun n (.cls isDigitChar) s i caps
      (fun j caps2 => mrun n r s j caps2 k) = none
    exact mrun_cls_digit_none hs n i caps _

theorem mrun_cls_none_of_k_none {s : List Char} (p : Char → Bool)
    (fuel i : ℕ) (caps : Caps) (k : ℕ → Caps → Option (ℕ × Caps))
    (hk : ∀ j c2, k j c2 = none) :
    mrun fuel (.cls p) s i caps k = none := by
  cases fuel with
  | zero => rfl
  | succ n =>
    show (match s.get? i with
      | some c => if p c = true then k (i + 1) caps else none
      | none => none) = none
    cases s.get? i with
    | none => rfl
    | some c =>
      show (if p c = true then k (i + 1) caps else none) = none
      by_cases hp : p c = true
      · rw [if_pos hp]
        exact hk _ _
      · rw [if_neg hp]

theorem mrun_optG_cls_none {s : List Char} (p : Char → Bool)
    (fuel i : ℕ) (caps : Caps) (k : ℕ → Caps → Option (ℕ × Caps))
    (hk : ∀ j c2, k j c2 = none) :
    mrun fuel (.optG (.cls p)) s i caps k = none := by
  cases fuel with
  | zero => rfl
  | succ n =>
    show (mrun n (.cls p) s i caps k <|> k i caps) = none
    rw [mrun_cls_none_of_k_none p n i caps k hk, hk i caps]
    rfl

theorem mrun_numRx_none {s : List Char} (hs : ∀ c ∈ s, c.isDigit = false)
    (fuel i : ℕ) (caps : Caps) (k : ℕ → Caps → Option (ℕ × Caps)) :
    mrun fuel numRx s i caps k = none := by
  cases fuel with
  | zero => rfl
  | succ n =>
    show mrun n (.seq (.optG (.cls (· = '-')))
        (.seq (.cls isDigitChar) (.starG (.cls isNumTailChar)))) s i caps
      (fun j caps2 => k j ((1, i, j) :: caps2)) = none
    cases n with
    | zero => rfl
    | succ m =>
      show mrun m (.optG (.cls (· = '-'))) s i caps
        (fun j caps2 =>
          mrun m (.seq (.cls isDigitChar) (.starG (.cls isNumTailChar)))
            s j caps2 (fun j2 c2 => k j2 ((1, i, j2) :: c2))) = none
      exact mrun_optG_cls_none _ m i caps _
        (fun j c2 => mrun_seq_digit_none hs m _ j c2 _)

theorem mrun_floatSubstRx_none {s : List Char} (hs : ∀ c ∈ s, c.isDigit = false)
    (fuel i : ℕ) (caps : Caps) (k : ℕ → Caps → Option (ℕ × Caps)) :
    mrun fuel floatSubstRx s i caps k = none := by
  cases fuel with
  | zero => rfl
  | succ n =>
    show mrun n (.optG (.cls (· = '-'))) s i caps
      (fun j caps2 => mrun n (.seq (RE.plusG (.cls isDigitChar))
        (.optG (.grp 1 (.seq (.cls (· = '.')) (RE.plusG (.cls isDigitChar))))))
        s j caps2 k) = none
    refine mrun_optG_cls_none _ n i caps _ (fun j c2 => ?_)
    cases n with
    | zero => rfl
    | succ m =>
      show mrun m (RE.plusG (.cls isDigitChar)) s j c2
        (fun j2 cc => mrun m (.optG (.grp 1 (.seq (.cls (· = '.'))
          (RE.plusG (.cls isDigitChar))))) s j2 cc k) = none
      exact mrun_seq_digit_none hs m _ j c2 _

theorem matchAt_none_of_mrun {re : RE} {s : List Char}
    (hm : ∀ fuel i caps k, mrun fuel re s i caps k = none) (i : ℕ) :
    matchAt re s i = none := by
  unfold matchAt
  rw [hm (matchFuel s) i [] _]

theorem searchFrom_none_of_mrun {re : RE} {s : List Char}
    (hm : ∀ fuel i caps k, mrun fuel re s i caps k = none) :
    ∀ fuel i, searchFrom re s fuel i = none := by
  intro fuel
  induction fuel with
  | zero => exact fun i => matchAt_none_of_mrun hm i
  | succ n ih =>
    intro i
    show (if i > s.length then none
      else match matchAt re s i with
        | some m => some m
        | none => searchFrom re s n (i + 1)) = none
    rw [matchAt_none_of_mrun hm i]
    by_cases hgt : i > s.length
    · rw [if_pos hgt]
    · rw [if_neg hgt]
      exact ih (i + 1)

theorem rxSearch_none_of_mrun {re : RE} {s : List Char}
    (hm : ∀ fuel i caps k, mrun fuel re s i caps k = none) :
    rxSearch re s = none :=
  searchFrom_none_of_mrun hm _ _

theorem groupValid_takeUS_false {l : List Char}
    (h : ∀ c ∈ l, c.isDigit = false) : groupValid (takeUS l).1 = false := by
  cases l with
  | nil => rfl
  | cons c rest =>
    by_cases hc : c = '_'
    · subst hc
      rfl
    · show groupValid ((c :: rest).takeWhile fun d => d.isDigit || d = '_') = false
      rw [List.takeWhile_cons]
      simp [h c (List.mem_cons_self _ _), hc, groupValid]

theorem pyFloatBody_none {l : List Char} (h : ∀ c ∈ l, c.isDigit = false) :
    pyFloatBody l = none := by
  have hd : ∀ c ∈ (takeUS l).2, c.isDigit = false := fun c hc =>
    h c ((List.dropWhile_sublist _).subset hc)
  simp only [pyFloatBody]
  rw [groupValid_takeUS_false h]
  by_cases he : (takeUS l).1.isEmpty = true
  · rw [if_pos he]
    split
    next r2 heq =>
      have h2 : ∀ c ∈ r2, c.isDigit = false := fun c hc =>
        hd c (by rw [heq]; exact List.mem_cons_of_mem _ hc)
      rw [groupValid_takeUS_false h2]
      simp
    all_goals rfl
  · rw [if_neg he]
    simp

theorem pyFloatOfStr_none {s : String}
    (h : ∀ c ∈ (pyStrip s).data, c.isDigit = false) : pyFloatOfStr s = none := by
  simp only [pyFloatOfStr]
  split
  next rest heq =>
    exact pyFloatBody_none (fun c hc =>
      h c (by rw [heq]; exact List.mem_cons_of_mem _ hc))
  next rest heq =>
    rw [pyFloatBody_none (fun c hc =>
      h c (by rw [heq]; exact List.mem_cons_of_mem _ hc))]
    rfl
  next => exact pyFloatBody_none h

theorem tfsCore_none {s3 : List Char} (h : ∀ c ∈ s3, c.isDigit = false) :
    tfsCore s3 = none := by
  unfold tfsCore
  rw [pyFloatOfStr_none (fun c hc => h c (mem_of_mem_pyStrip hc)),
    rxSearch_none_of_mrun (mrun_floatSubstRx_none h)]

theorem to_float_safe_str_none {s : String}
    (h : ∀ c ∈ s.data, c.isDigit = false) : to_float_safe_str s = none := by
  simp only [to_float_safe_str]
  by_cases h1 : pyStrip s = ""
  · rw [if_pos h1]
  · rw [if_neg h1]
    exact tfsCore_none (fun c hc => h c
      (mem_of_mem_pyStrip (mem_of_mem_removeChars
        (mem_of_mem_pyStrip (mem_of_mem_removeChars hc)))))

theorem tnOfClean_no_digit (stripped : String) {s_clean : String}
    (h : ∀ c ∈ s_clean.data, c.isDigit = false) :
    tnOfClean stripped s_clean = some (.vStr stripped) := by
  unfold tnOfClean
  rw [isIntLit_false h, isFloatLitDotted_false h,
    rxSearch_none_of_mrun (mrun_numRx_none h)]
  simp

/-- C4 as stated fails for `_to_float_safe` (`metrics.py` lines 48-75), one of
the two functions it covers: on the input `"hello"` — non-empty after
trimming, with no numeric substring — it returns `None` rather than the
trimmed string; `_to_number` is the function that returns the string. -/
theorem to_float_safe_nonnumeric_counterexample :
    pyStrip "hello" = "hello" ∧ ("hello" : String) ≠ "" ∧
    (∀ c ∈ ("hello" : String).data, c.isDigit = false) ∧
    to_float_safe (some (.vStr "hello")) = none ∧
    to_number "hello" = some (.vStr "hello") := by
  refine ⟨rfl, by decide, by decide, rfl, rfl⟩

/-- C4 (amended): on a string that is non-empty after trimming and contains
no digit at all (hence no numeric substring), `_to_number` returns the
quote-stripped trimmed string as a string value — never `None` and never an
exception path — while `_to_float_safe`, which the claim also cites, returns
`None` rather than the trimmed string. -/
theorem to_number_nonnumeric_returns_string (s : String)
    (h1 : pyStrip s ≠ "") (h : ∀ c ∈ s.data, c.isDigit = false) :
    to_number s = some (.vStr (tnStripped (pyStrip s))) ∧
    to_float_safe (some (.vStr s)) = none := by
  constructor
  · show (if pyStrip s = "" then none
      else tnOfClean (tnStripped (pyStrip s)) (tnClean (tnStripped (pyStrip s))))
      = some (.vStr (tnStripped (pyStrip s)))
    rw [if_neg h1]
    exact tnOfClean_no_digit _ (fun c hc => h c
      (mem_of_mem_pyStrip (mem_of_mem_tnStripped (mem_of_mem_tnClean hc))))
  · exact to_float_safe_str_none h

/-- Witness for the amended C4 at the concrete input `"total refurb"`. -/
theorem to_number_nonnumeric_returns_string_witness :
    to_number "total refurb" = some (.vStr (tnStripped (pyStrip "total refurb"))) ∧
    to_float_safe (some (.vStr "total refurb")) = none :=
  to_number_nonnumeric_returns_string "total refurb" (by decide) (by decide)

/-! ## Claim C5 -/

theorem ltvRiskOf_mem (x : Option ℚ) :
    ltvRiskOf x = 0 ∨ ltvRiskOf x = 1/2 ∨ ltvRiskOf x = 1 := by
  cases x with
  | none => exact Or.inl rfl
  | some v =>
    simp only [ltvRiskOf]
    split_ifs <;> simp

theorem dscrRiskOf_mem (x : Option ℚ) :
    dscrRiskOf x = 0 ∨ dscrRiskOf x = 1/2 ∨ dscrRiskOf x = 1 := by
  cases x with
  | none => exact Or.inr (Or.inr rfl)
  | some v =>
    simp only [dscrRiskOf]
    split_ifs <;> simp

theorem flagsRisk_mem (b : Bool) :
    (if b then (1 : ℚ) else 0) = 0 ∨ (if b then (1 : ℚ) else 0) = 1 := by
  cases b <;> simp

/-! Projection equations for the staged `compute_lending_metrics`; each holds
by a single unfolding. -/

theorem compute_lm_eq (parsed : Record) :
    (compute_lending_metrics parsed).lm = lmOf parsed := by
  unfold compute_lending_metrics
  with_reducible rfl

theorem compute_audit_eq (parsed : Record) :
    (compute_lending_metrics parsed).audit = audit4Of parsed := by
  unfold compute_lending_metrics
  with_reducible rfl

theorem compute_parsedOut_eq (parsed : Record) :
    (compute_lending_metrics parsed).parsedOut
      = dictSet (dictSet parsed "input_audit"
          (.vList ((audit4Of parsed).map .vStr)))
        "lending_metrics" (lmToVal (lmOf parsed)) := by
  unfold compute_lending_metrics
  with_reducible rfl

theorem lmOf_noi_eq (parsed : Record) : (lmOf parsed).noi = lmNoiOf parsed := by
  unfold lmOf
  with_reducible rfl

theorem lmOf_dscrAm_eq (parsed : Record) :
    (lmOf parsed).dscr_amortising = dscrAmOf parsed := by
  unfold lmOf
  with_reducible rfl

theorem lmOf_dscrIo_eq (parsed : Record) :
    (lmOf parsed).dscr_interest_only = dscrIoOf parsed := by
  unfold lmOf
  with_reducible rfl

theorem lmOf_adsAm_eq (parsed : Record) :
    (lmOf parsed).annual_debt_service_amortising = adsAmOf parsed := by
  unfold lmOf
  with_reducible rfl

theorem lmOf_adsIo_eq (parsed : Record) :
    (lmOf parsed).annual_debt_service_interest_only = adsIoOf parsed := by
  unfold lmOf
  with_reducible rfl

theorem lmOf_monthlyIo_eq (parsed : Record) :
    (lmOf parsed).monthly_interest_only_payment = lmMonthlyIoOf parsed := by
  unfold lmOf
  with_reducible rfl

theorem lmOf_score_eq (parsed : Record) :
    (lmOf parsed).risk_score_computed = roundTo 3 (scoreValOf parsed) := by
  unfold lmOf
  with_reducible rfl

theorem lmOf_category_eq (parsed : Record) :
    (lmOf parsed).risk_category = categoryOf (scoreValOf parsed) := by
  unfold lmOf
  with_reducible rfl

theorem dscrAmOf_eq (parsed : Record) :
    dscrAmOf parsed = (dscrOf (lmNoiOf parsed) (adsAmOf parsed)).map (roundTo 3) := by
  unfold dscrAmOf
  with_reducible rfl

theorem dscrIoOf_eq (parsed : Record) :
    dscrIoOf parsed = (dscrOf (lmNoiOf parsed) (adsIoOf parsed)).map (roundTo 3) := by
  unfold dscrIoOf
  with_reducible rfl

theorem scoreValOf_eq (parsed : Record) :
    scoreValOf parsed
      = scoreOf (ltvRiskOf (lmLtvOf parsed)) (dscrRiskOf (dscrForScoreOf parsed))
          (if flagsPresentOf parsed then 1 else 0) := by
  unfold scoreValOf
  with_reducible rfl

theorem lmMonthlyIoOf_eq (parsed : Record) :
    lmMonthlyIoOf parsed
      = (monthlyInterestOnlyOf (loanOf parsed) (rateOf parsed)).map (roundTo 2) := by
  unfold lmMonthlyIoOf
  with_reducible rfl

theorem loanOf_eq (parsed : Record) :
    loanOf parsed = pyGetQ (canonicalize parsed).1 "loan_amount" := by
  unfold loanOf canonOf
  with_reducible rfl

theorem rateOf_eq (parsed : Record) :
    rateOf parsed = pyGetQ (canonicalize parsed).1 "interest_rate_annual" := by
  unfold rateOf canonOf
  with_reducible rfl

theorem risk_char (a b c : ℚ)
    (ha : a = 0 ∨ a = 1/2 ∨ a = 1) (hb : b = 0 ∨ b = 1/2 ∨ b = 1)
    (hc : c = 0 ∨ c = 1) :
    0 ≤ roundTo 3 (scoreOf a b c) ∧ roundTo 3 (scoreOf a b c) ≤ 1 ∧
    (roundTo 3 (scoreOf a b c) < 2/5 → categoryOf (scoreOf a b c) = "Low") ∧
    (2/5 ≤ roundTo 3 (scoreOf a b c) → roundTo 3 (scoreOf a b c) < 7/10 →
      categoryOf (scoreOf a b c) = "Medium") ∧
    (7/10 ≤ roundTo 3 (scoreOf a b c) → categoryOf (scoreOf a b c) = "High") := by
  rcases ha with rfl | rfl | rfl <;> rcases hb with rfl | rfl | rfl <;>
    rcases hc with rfl | rfl <;> decide

set_option maxHeartbeats 4000000 in
/-- C5: on every input record the computed risk score lies in [0, 1] and the
risk category follows exactly the thresholds Low < 0.40 ≤ Medium < 0.70 ≤
High, measured on the reported `risk_score_computed`. -/
theorem risk_score_bounds_and_category (parsed : Record) :
    0 ≤ (compute_lending_metrics parsed).lm.risk_score_computed ∧
    (compute_lending_metrics parsed).lm.risk_score_computed ≤ 1 ∧
    ((compute_lending_metrics parsed).lm.risk_score_computed < 2/5 →
      (compute_lending_metrics parsed).lm.risk_category = "Low") ∧
    (2/5 ≤ (compute_lending_metrics parsed).lm.risk_score_computed →
      (compute_lending_metrics parsed).lm.risk_score_computed < 7/10 →
      (compute_lending_metrics parsed).lm.risk_category = "Medium") ∧
    (7/10 ≤ (compute_lending_metrics parsed).lm.risk_score_computed →
      (compute_lending_metrics parsed).lm.risk_category = "High") := by
  rw [compute_lm_eq, lmOf_score_eq, lmOf_category_eq, scoreValOf_eq]
  exact risk_char _ _ _ (ltvRiskOf_mem _) (dscrRiskOf_mem _) (flagsRisk_mem _)

/-- Witness for C5 at the empty record. -/
theorem risk_score_bounds_and_category_witness :
    0 ≤ (compute_lending_metrics ([] : Record)).lm.risk_score_computed ∧
    (compute_lending_metrics ([] : Record)).lm.risk_score_computed ≤ 1 ∧
    ((compute_lending_metrics ([] : Record)).lm.risk_score_computed < 2/5 →
      (compute_lending_metrics ([] : Record)).lm.risk_category = "Low") ∧
    (2/5 ≤ (compute_lending_metrics ([] : Record)).lm.risk_score_computed →
      (compute_lending_metrics ([] : Record)).lm.risk_score_computed < 7/10 →
      (compute_lending_metrics ([] : Record)).lm.risk_category = "Medium") ∧
    (7/10 ≤ (compute_lending_metrics ([] : Record)).lm.risk_score_computed →
      (compute_lending_metrics ([] : Record)).lm.risk_category = "High") :=
  risk_score_bounds_and_category []

/-! ## Claim C6 -/

/-- C6 as stated is false at the concrete pair reaching the DSCR guard
(lines 336-342): `noi = -5` (non-positive) with annual debt service 120000
yields `round(-5/120000, 3) = -0.0`, a numeric value, not `None`. -/
theorem dscr_nonpositive_noi_counterexample :
    (-5 : ℚ) ≤ 0 ∧
    (dscrOf (some (-5)) (some 120000)).map (roundTo 3) = some 0 ∧
    (dscrOf (some (-5)) (some 120000)).map (roundTo 3) ≠ (none : Option ℚ) := by
  refine ⟨by norm_num, by decide, by decide⟩

set_option maxHeartbeats 4000000 in
/-- C6 (amended): in both repayment modes the DSCR field equals
`round(noi / ads, 3)` whenever `noi` is present (whatever its sign) and the
annual debt service is present and strictly positive, and `None` when either
is missing or the debt service is not positive — a zero or negative `noi`
still yields a numeric DSCR. -/
theorem dscr_characterization (parsed : Record) :
    ((compute_lending_metrics parsed).lm.dscr_amortising
      = (dscrOf (compute_lending_metrics parsed).lm.noi
          (compute_lending_metrics parsed).lm.annual_debt_service_amortising).map
          (roundTo 3)) ∧
    ((compute_lending_metrics parsed).lm.dscr_interest_only
      = (dscrOf (compute_lending_metrics parsed).lm.noi
          (compute_lending_metrics parsed).lm.annual_debt_service_interest_only).map
          (roundTo 3)) ∧
    (∀ nv a : ℚ, 0 < a → dscrOf (some nv) (some a) = some (nv / a)) ∧
    (∀ nv a : ℚ, a ≤ 0 → dscrOf (some nv) (some a) = none) ∧
    (∀ y : Option ℚ, dscrOf none y = none) ∧
    (∀ x : Option ℚ, dscrOf x none = none) := by
  rw [compute_lm_eq, lmOf_dscrAm_eq, lmOf_dscrIo_eq, lmOf_noi_eq, lmOf_adsAm_eq,
    lmOf_adsIo_eq, dscrAmOf_eq, dscrIoOf_eq]
  refine ⟨rfl, rfl, ?_, ?_, ?_, ?_⟩
  · intro nv a ha
    show (if a ≠ 0 then (if 0 < a then some (nv / a) else none) else none)
      = some (nv / a)
    rw [if_pos (ne_of_gt ha)]
    rw [if_pos ha]
  · intro nv a ha
    show (if a ≠ 0 then (if 0 < a then some (nv / a) else none) else none)
      = none
    by_cases h0 : a = 0
    · rw [if_neg (by simpa using h0)]
    · rw [if_pos h0]
      rw [if_neg (by push_neg; exact ha)]
  · intro y; cases y <;> rfl
  · intro x; cases x <;> rfl

/-- Witness for the amended C6: the compute-level identities at the empty
record, plus discharged instances of each guard case. -/
theorem dscr_characterization_witness :
    ((compute_lending_metrics ([] : Record)).lm.dscr_amortising
      = (dscrOf (compute_lending_metrics ([] : Record)).lm.noi
          (compute_lending_metrics ([] : Record)).lm.annual_debt_service_amortising).map
          (roundTo 3)) ∧
    dscrOf (some 25500) (some 120000) = some (25500 / 120000) ∧
    dscrOf (some 1) (some (-3)) = none ∧
    dscrOf none (some 5) = none ∧
    dscrOf (some 1) none = none :=
  ⟨(dscr_characterization []).1,
   (dscr_characterization []).2.2.1 25500 120000 (by decide),
   (dscr_characterization []).2.2.2.1 1 (-3) (by decide),
   (dscr_characterization []).2.2.2.2.1 (some 5),
   (dscr_characterization []).2.2.2.2.2 (some 1)⟩

/-! ## Claim C7 -/

/-- C7: any rate value above 1 is divided by 100 before use, so a percentage
rate `p` (with `1 < p ≤ 100`) and its decimal form `p / 100` produce the same
interest-only payment; the last conjunct ties the interest-only stage to the
`monthly_interest_only_payment` field of `compute_lending_metrics`. -/
theorem rate_normalization_symmetry :
    (∀ r : ℚ, 1 < r → normalizeRate r = r / 100) ∧
    (∀ (loan : Option ℚ) (p : ℚ), 1 < p → p ≤ 100 →
      monthlyInterestOnlyOf loan (some p)
        = monthlyInterestOnlyOf loan (some (p / 100))) ∧
    (∀ parsed : Record,
      (compute_lending_metrics parsed).lm.monthly_interest_only_payment
        = (monthlyInterestOnlyOf (pyGetQ (canonicalize parsed).1 "loan_amount")
            (pyGetQ (canonicalize parsed).1 "interest_rate_annual")).map
            (roundTo 2)) := by
  refine ⟨?_, ?_, ?_⟩
  · intro r hr
    unfold normalizeRate
    rw [if_pos hr]
  · intro loan p h1 h2
    cases loan with
    | none => rfl
    | some l =>
      show some (l * normalizeRate p / 12) = some (l * normalizeRate (p / 100) / 12)
      have e1 : normalizeRate p = p / 100 := by
        unfold normalizeRate; rw [if_pos h1]
      have e2 : normalizeRate (p / 100) = p / 100 := by
        unfold normalizeRate
        rw [if_neg (by simp only [not_lt]; linarith)]
      rw [e1, e2]
  · intro parsed
    rw [compute_lm_eq, lmOf_monthlyIo_eq, lmMonthlyIoOf_eq, loanOf_eq, rateOf_eq]

/-- Witness for C7 at the spec's rate pair 5.5 / 0.055 with loan 240000. -/
theorem rate_normalization_symmetry_witness :
    normalizeRate (11/2) = (11/2) / 100 ∧
    monthlyInterestOnlyOf (some 240000) (some (11/2))
      = monthlyInterestOnlyOf (some 240000) (some ((11/2) / 100)) ∧
    (compute_lending_metrics ([] : Record)).lm.monthly_interest_only_payment
      = (monthlyInterestOnlyOf (pyGetQ (canonicalize ([] : Record)).1 "loan_amount")
          (pyGetQ (canonicalize ([] : Record)).1 "interest_rate_annual")).map
          (roundTo 2) :=
  ⟨rate_normalization_symmetry.1 (11/2) (by decide),
   rate_normalization_symmetry.2.1 (some 240000) (11/2) (by decide) (by decide),
   rate_normalization_symmetry.2.2 []⟩

/-! ## Claim C9 -/

/-- C9 as stated is false: `compute_lending_metrics` writes into the caller's
record — on the empty record, the keys `input_audit` and `lending_metrics`
appear after the call. -/
theorem compute_mutates_record_counterexample :
    dictLookup ([] : Record) "input_audit" = none ∧
    (dictLookup (compute_lending_metrics ([] : Record)).parsedOut
      "input_audit").isSome = true ∧
    (dictLookup (compute_lending_metrics ([] : Record)).parsedOut
      "lending_metrics").isSome = true := by
  exact ⟨rfl, rfl, rfl⟩

/-- C9 (amended): the function is deterministic in the record's contents but
mutates the caller's record, writing exactly the keys `input_audit` (the
final audit list) and `lending_metrics` (the metrics mapping) and leaving
every other binding unchanged. -/
theorem compute_record_frame (parsed : Record) (k : String)
    (h1 : k ≠ "input_audit") (h2 : k ≠ "lending_metrics") :
    dictLookup (compute_lending_metrics parsed).parsedOut k
      = dictLookup parsed k ∧
    dictLookup (compute_lending_metrics parsed).parsedOut "input_audit"
      = some (.vList ((compute_lending_metrics parsed).audit.map .vStr)) ∧
    dictLookup (compute_lending_metrics parsed).parsedOut "lending_metrics"
      = some (lmToVal (compute_lending_metrics parsed).lm) := by
  refine ⟨?_, ?_, ?_⟩
  · rw [compute_parsedOut_eq, dictLookup_dictSet_ne _ _ _ _ h2,
      dictLookup_dictSet_ne _ _ _ _ h1]
  · rw [compute_parsedOut_eq, compute_audit_eq,
      dictLookup_dictSet_ne _ _ _ _ (by decide), dictLookup_dictSet_self]
  · rw [compute_parsedOut_eq, compute_lm_eq, dictLookup_dictSet_self]

/-- Witness for the amended C9 at the empty record and the key `borrower`. -/
theorem compute_record_frame_witness :
    dictLookup (compute_lending_metrics ([] : Record)).parsedOut "borrower"
      = dictLookup ([] : Record) "borrower" ∧
    dictLookup (compute_lending_metrics ([] : Record)).parsedOut "input_audit"
      = some (.vList ((compute_lending_metrics ([] : Record)).audit.map .vStr)) ∧
    dictLookup (compute_lending_metrics ([] : Record)).parsedOut "lending_metrics"
      = some (lmToVal (compute_lending_metrics ([] : Record)).lm) :=
  compute_record_frame [] "borrower" (by decide) (by decide)

/-! ## Claim C10 -/

/-- C10: `detect_implausible_loan` fires exactly for a numeric, strictly
positive loan amount that is below 100 or below 1% of the available
reference cost; in particular it returns `False` when the loan amount is
absent, non-numeric, zero or negative. -/
theorem detect_implausible_loan_characterization (parsed : Record) :
    detect_implausible_loan parsed = true ↔
      ∃ lv, pyGet parsed "loan_amount" = some lv ∧ isNumericVal lv = true ∧
        0 < numVal lv ∧
        (numVal lv < 100 ∨
          ∃ pv, refCost parsed = some pv ∧ valTruthy pv = true ∧
            isNumericVal pv = true ∧ 0 < numVal pv ∧
            numVal lv / numVal pv < 1/100) := by
  unfold detect_implausible_loan
  cases hL : pyGet parsed "loan_amount" with
  | none => simp
  | some lv =>
    show (if isNumericVal lv = true ∧ 0 < numVal lv then
        (if numVal lv < 100 then true
         else
          match refCost parsed with
          | some prop =>
            if valTruthy prop = true ∧ isNumericVal prop = true ∧ 0 < numVal prop then
              decide (numVal lv / numVal prop < 1/100)
            else false
          | none => false)
        else false) = true ↔ _
    constructor
    · intro h
      by_cases hnum : isNumericVal lv = true ∧ 0 < numVal lv
      · rw [if_pos hnum] at h
        refine ⟨lv, rfl, hnum.1, hnum.2, ?_⟩
        by_cases hlt : numVal lv < 100
        · exact Or.inl hlt
        · rw [if_neg hlt] at h
          cases hR : refCost parsed with
          | none =>
            rw [hR] at h
            exact absurd h (by simp)
          | some pv =>
            rw [hR] at h
            replace h : (if valTruthy pv = true ∧ isNumericVal pv = true
                  ∧ 0 < numVal pv then
                decide (numVal lv / numVal pv < 1/100) else false) = true := h
            by_cases hp : valTruthy pv = true ∧ isNumericVal pv = true ∧ 0 < numVal pv
            · rw [if_pos hp] at h
              exact Or.inr ⟨pv, rfl, hp.1, hp.2.1, hp.2.2, of_decide_eq_true h⟩
            · rw [if_neg hp] at h
              exact absurd h (by simp)
      · rw [if_neg hnum] at h
        exact absurd h (by simp)
    · rintro ⟨lv2, hlv2, hnum, hpos, hrest⟩
      obtain rfl : lv = lv2 := by
        injection hlv2 with he
      rw [if_pos ⟨hnum, hpos⟩]
      rcases hrest with hlt | ⟨pv, hpv, ht, hn, hp, hratio⟩
      · rw [if_pos hlt]
      · by_cases hlt : numVal lv < 100
        · rw [if_pos hlt]
        · rw [if_neg hlt, hpv]
          show (if valTruthy pv = true ∧ isNumericVal pv = true ∧ 0 < numVal pv then
              decide (numVal lv / numVal pv < 1/100) else false) = true
          rw [if_pos ⟨ht, hn, hp⟩]
          exact decide_eq_true hratio

/-- Witness for C10: the spec's Scenario C input, loan 5, is flagged. -/
theorem detect_implausible_loan_characterization_witness :
    detect_implausible_loan
      [("loan_amount", .vFloat 5), ("property_value", .vFloat 300000)] = true :=
  (detect_implausible_loan_characterization _).mpr
    ⟨.vFloat 5, rfl, rfl, by decide, Or.inl (by decide)⟩

end Proofs

end BlueCroft
